import Mathlib

/-!
Verification of the Mini-Compiler front-end (lexer, parser, symbol table,
type checker, IR emitter, driver).  Each C++ component is shallowly embedded
as executable Lean definitions; member mutation becomes explicit state
passing, and C++ exceptions become `Except` / `Option` error values that
carry the state at the throw point.
-/

set_option maxHeartbeats 1000000
set_option maxRecDepth 10000

namespace MiniC

/-- Token kinds, from `token.hpp` (`enum class TokenType`). -/
inductive TokenType where
  | LPAREN | RPAREN | LBRACE | RBRACE | LBRACKET | RBRACKET
  | COMMA | DOT | MINUS | PLUS | SEMICOLON | SLASH | MULTIPLY
  | AMPERSAND | PIPE
  | NOT | NOT_EQUAL
  | EQUAL | EQUAL_EQUAL
  | LESS | LESS_EQUAL | LEFT_SHIFT
  | GREATER | GREATER_EQUAL | RIGHT_SHIFT
  | AND | OR
  | INCREMENT | DECREMENT
  | ARROW
  | PLUS_EQUAL | MINUS_EQUAL | MULTIPLY_EQUAL | DIVIDE_EQUAL
  | IDENTIFIER | STRING_LITERAL | CHAR_LITERAL
  | INTEGER_LITERAL | FLOAT_LITERAL | BOOL_LITERAL
  | IF | ELSE | WHILE | FOR | RETURN
  | INT | FLOAT | CHAR | VOID | BOOL
  | USING | NAMESPACE | STD
  | COUT | CIN | ENDL
  | TRUE | FALSE
  | HASH | INCLUDE
  | POINTER
  | END_OF_FILE
  deriving DecidableEq, Repr, Fintype

/-- A token, from `token.hpp` (`struct Token`). -/
structure Token where
  type : TokenType
  lexeme : String
  line : Nat
  deriving DecidableEq, Repr

/-- From `typechecker.cpp`: `TypeChecker::isNumericType`. -/
def isNumericType (t : TokenType) : Bool :=
  t = TokenType.INTEGER_LITERAL ||
  t = TokenType.FLOAT_LITERAL ||
  t = TokenType.INT ||
  t = TokenType.FLOAT

/-- From `typechecker.cpp`: `TypeChecker::isBooleanType`. -/
def isBooleanType (t : TokenType) : Bool :=
  t = TokenType.BOOL ||
  t = TokenType.BOOL_LITERAL ||
  t = TokenType.TRUE ||
  t = TokenType.FALSE

/-- From `typechecker.cpp`: `TypeChecker::isPointerType`. -/
def isPointerType (t : TokenType) : Bool :=
  t = TokenType.POINTER

/-- From `typechecker.cpp`: `TypeChecker::isCompatibleType`.  The pointer
clause tests `isPointerType(left) && right == INTEGER_LITERAL` only. -/
def isCompatibleType (left right : TokenType) : Bool :=
  if left = right then true
  else if isNumericType left && isNumericType right then true
  else if isBooleanType left && isBooleanType right then true
  else if isPointerType left && right = TokenType.INTEGER_LITERAL then true
  else false

example : isCompatibleType TokenType.POINTER TokenType.INTEGER_LITERAL = true := by decide
example : isCompatibleType TokenType.INTEGER_LITERAL TokenType.POINTER = false := by decide

/-! ## AST (`ast.h`) -/

mutual
/-- Expressions, from `ast.h` (the `Expression` class hierarchy). -/
inductive Expr where
  | binary (left : Expr) (op : TokenType) (right : Expr)
  | unary (op : TokenType) (operand : Expr)
  | ident (name : String)
  | literal (value : String) (literalType : TokenType)
  | call (callee : String) (arguments : List Expr)
  | logical (left : Expr) (op : TokenType) (right : Expr)
  | assign (name : String) (op : TokenType) (value : Expr)
  deriving Repr

/-- Statements, from `ast.h` (the `Statement` class hierarchy).  A C++
`nullptr` child becomes `none`. -/
inductive Stmt where
  | exprStmt (e : Expr)
  | block (stmts : List Stmt)
  | ifStmt (cond : Expr) (thenBranch : Stmt) (elseBranch : Option Stmt)
  | whileStmt (cond : Expr) (body : Stmt)
  | forStmt (init : Option Stmt) (cond : Option Expr) (inc : Option Expr) (body : Stmt)
  | ret (value : Option Expr)
  | varDecl (declType : TokenType) (isPointer : Bool) (name : String) (init : Option Expr)
  | funcDecl (name : String) (returnType : TokenType)
      (params : List (String × TokenType)) (body : Stmt)
  deriving Repr
end

/-! ## Symbol table (`symboltable.h` / `symboltable.cpp`) -/

/-- From `symboltable.h`: `Symbol::SymbolKind`. -/
inductive SymbolKind where
  | VARIABLE | FUNCTION | PARAMETER
  deriving DecidableEq, Repr

/-- From `symboltable.h`: `class Symbol`.  The C++ constructors leave some
fields uninitialized (e.g. `type` in the function constructor); an
uninitialized enum is modelled as the first enumerator `LPAREN` and an
uninitialized pointer flag as `false`; no checker path reads those fields. -/
structure Symbol where
  name : String
  type : TokenType := TokenType.LPAREN
  isPointer : Bool := false
  kind : SymbolKind := SymbolKind.VARIABLE
  returnType : TokenType := TokenType.LPAREN
  parameters : List (String × TokenType) := []
  deriving DecidableEq, Repr

/-- A scope's `unordered_map<string, Symbol>`, modelled as an association
list keyed by name (names unique within a scope by `Scope::define`). -/
def Scope := List (String × Symbol)

/-- From `symboltable.cpp`: `Scope::contains`. -/
def Scope.containsName (s : Scope) (name : String) : Bool :=
  (List.lookup name s).isSome

/-- From `symboltable.cpp`: `Scope::define` (no overwrite if present). -/
def Scope.defineSym (s : Scope) (sym : Symbol) : Scope × Bool :=
  if s.containsName sym.name then (s, false) else ((sym.name, sym) :: s, true)

/-- From `symboltable.cpp`: `Scope::resolve`. -/
def Scope.resolveSym (s : Scope) (name : String) : Option Symbol :=
  List.lookup name s

/-- The symbol table's `vector<unique_ptr<Scope>> scopes`, with the
INNERMOST scope at the head (the C++ vector keeps it at the back). -/
def SymbolTable := List Scope

/-- From `symboltable.cpp`: the `SymbolTable` constructor (one global scope). -/
def SymbolTable.fresh : SymbolTable := [([] : Scope)]

/-- From `symboltable.cpp`: `SymbolTable::enterScope`. -/
def SymbolTable.enterScope (st : SymbolTable) : SymbolTable := ([] : Scope) :: st

/-- From `symboltable.cpp`: `SymbolTable::exitScope` — pops only when more
than one scope is live, so the global scope is never removed. -/
def SymbolTable.exitScope (st : SymbolTable) : SymbolTable :=
  if st.length > 1 then st.tail else st

/-- From `symboltable.cpp`: `SymbolTable::define` (into the innermost scope). -/
def SymbolTable.define (st : SymbolTable) (sym : Symbol) : SymbolTable × Bool :=
  match st with
  | [] => ([], false)
  | inner :: rest =>
    let (inner', ok) := inner.defineSym sym
    (inner' :: rest, ok)

/-- From `symboltable.cpp`: `SymbolTable::resolve` (innermost outwards). -/
def SymbolTable.resolve (st : SymbolTable) (name : String) : Option Symbol :=
  match st with
  | [] => none
  | inner :: rest =>
    match inner.resolveSym name with
    | some sym => some sym
    | none => SymbolTable.resolve rest name

/-- From `symboltable.cpp`: `SymbolTable::resolveLocal`. -/
def SymbolTable.resolveLocal (st : SymbolTable) (name : String) : Option Symbol :=
  match st with
  | [] => none
  | inner :: _ => inner.resolveSym name

/-- An `enter_scope` / `exit_scope` call, for stating stack discipline. -/
inductive ScopeOp where
  | enterOp | exitOp
  deriving DecidableEq, Repr

/-- Run a sequence of scope operations against a symbol table. -/
def runScopeOps : List ScopeOp → SymbolTable → SymbolTable
  | [], st => st
  | ScopeOp.enterOp :: rest, st => runScopeOps rest st.enterScope
  | ScopeOp.exitOp :: rest, st => runScopeOps rest st.exitScope

/-- Count of `enter_scope` calls in a sequence. -/
def countEnter (ops : List ScopeOp) : Nat := ops.count ScopeOp.enterOp

/-- Count of `exit_scope` calls in a sequence. -/
def countExit (ops : List ScopeOp) : Nat := ops.count ScopeOp.exitOp

/-- A balanced call sequence: equal totals, and no prefix closes more
scopes than it opened (well-nested enter/exit pairs). -/
def balancedOps (ops : List ScopeOp) : Prop :=
  countEnter ops = countExit ops ∧
  ∀ k, countExit (ops.take k) ≤ countEnter (ops.take k)

instance : DecidablePred balancedOps := fun ops =>
  decidable_of_iff
    (countEnter ops = countExit ops ∧
      ∀ k ≤ ops.length, countExit (ops.take k) ≤ countEnter (ops.take k))
    (by
      constructor
      · rintro ⟨h1, h2⟩
        refine ⟨h1, fun k => ?_⟩
        by_cases hk : k ≤ ops.length
        · exact h2 k hk
        · rw [List.take_of_length_le (by omega)]
          have := h2 ops.length le_rfl
          rwa [List.take_of_length_le le_rfl] at this
      · rintro ⟨h1, h2⟩
        exact ⟨h1, fun k _ => h2 k⟩)

/-! ## IR and code generator (`codegen.h` / `codegen.cpp`) -/

/-- From `codegen.h`: `enum class OpCode`. -/
inductive OpCode where
  | LOAD | STORE | ADD | SUB | MUL | DIV | CMP
  | JMP | JE | JNE | JG | JL
  | CALL | RET | PUSH | POP | PRINT | LABEL
  deriving DecidableEq, Repr

/-- From `codegen.h`: `struct Instruction` (missing constructor arguments
default to the empty string). -/
structure Instruction where
  opcode : OpCode
  arg1 : String := ""
  arg2 : String := ""
  result : String := ""
  deriving DecidableEq, Repr

/-- The mutable state of `CodeGenerator`: instruction list and the two
monotonic counters (`tempVarCounter`, `labelCounter`). -/
structure CG where
  tempVarCounter : Nat := 0
  labelCounter : Nat := 0
  instructions : List Instruction := []
  deriving Repr

/-- From `codegen.cpp`: `CodeGenerator::generateTemp` (pre-increments). -/
def CG.generateTemp (g : CG) : String × CG :=
  ("t" ++ toString (g.tempVarCounter + 1), { g with tempVarCounter := g.tempVarCounter + 1 })

/-- From `codegen.cpp`: `CodeGenerator::generateLabel` (pre-increments). -/
def CG.generateLabel (g : CG) : String × CG :=
  ("L" ++ toString (g.labelCounter + 1), { g with labelCounter := g.labelCounter + 1 })

/-- Append one instruction (`instructions.emplace_back`). -/
def CG.emit (g : CG) (i : Instruction) : CG :=
  { g with instructions := g.instructions ++ [i] }

mutual
/-- From `codegen.cpp`: `CodeGenerator::generateExpression` with its
dispatched helpers `generateBinaryExpression`, `generateIdentifier`,
`generateLiteral`, `generateFunctionCall` inlined per constructor.  The
C++ `dynamic_cast` chain handles only those four shapes; unary, logical
and assignment expressions fall to the warning branch and emit nothing. -/
def generateExpression (e : Expr) (g : CG) : CG :=
  match e with
  | Expr.binary l op r =>
    let g := generateExpression l g
    let (leftTemp, g) := g.generateTemp
    let g := generateExpression r g
    let (rightTemp, g) := g.generateTemp
    let (resultTemp, g) := g.generateTemp
    match op with
    | TokenType.PLUS => g.emit ⟨OpCode.ADD, leftTemp, rightTemp, resultTemp⟩
    | TokenType.MINUS => g.emit ⟨OpCode.SUB, leftTemp, rightTemp, resultTemp⟩
    | TokenType.MULTIPLY => g.emit ⟨OpCode.MUL, leftTemp, rightTemp, resultTemp⟩
    | TokenType.SLASH => g.emit ⟨OpCode.DIV, leftTemp, rightTemp, resultTemp⟩
    | TokenType.EQUAL_EQUAL => g.emit ⟨OpCode.CMP, leftTemp, rightTemp, resultTemp⟩
    | TokenType.NOT_EQUAL => g.emit ⟨OpCode.CMP, leftTemp, rightTemp, resultTemp⟩
    | TokenType.LESS => g.emit ⟨OpCode.CMP, leftTemp, rightTemp, resultTemp⟩
    | TokenType.LESS_EQUAL => g.emit ⟨OpCode.CMP, leftTemp, rightTemp, resultTemp⟩
    | TokenType.GREATER => g.emit ⟨OpCode.CMP, leftTemp, rightTemp, resultTemp⟩
    | TokenType.GREATER_EQUAL => g.emit ⟨OpCode.CMP, leftTemp, rightTemp, resultTemp⟩
    | _ => g
  | Expr.ident name =>
    let (temp, g) := g.generateTemp
    g.emit ⟨OpCode.LOAD, name, "", temp⟩
  | Expr.literal value _ =>
    let (temp, g) := g.generateTemp
    g.emit ⟨OpCode.STORE, value, "", temp⟩
  | Expr.call callee args =>
    let (g, argTemps) := generateCallArguments args g
    let g := argTemps.foldl (fun g t => g.emit ⟨OpCode.PUSH, t, "", ""⟩) g
    let g := g.emit ⟨OpCode.CALL, callee, "", ""⟩
    let g := argTemps.foldl (fun g _ => g.emit ⟨OpCode.POP, "", "", ""⟩) g
    let (resultTemp, g) := g.generateTemp
    g.emit ⟨OpCode.STORE, "retval", "", resultTemp⟩
  | Expr.unary _ _ => g
  | Expr.logical _ _ _ => g
  | Expr.assign _ _ _ => g

/-- The argument loop of `CodeGenerator::generateFunctionCall`: lower each
argument, mint a temp for it, and collect the temp names in order. -/
def generateCallArguments (args : List Expr) (g : CG) : CG × List String :=
  match args with
  | [] => (g, [])
  | a :: rest =>
    let g := generateExpression a g
    let (t, g) := g.generateTemp
    let (g, ts) := generateCallArguments rest g
    (g, t :: ts)

/-- From `codegen.cpp`: `CodeGenerator::generateStatement` with the
dispatched per-statement helpers inlined per constructor. -/
def generateStatement (s : Stmt) (g : CG) : CG :=
  match s with
  | Stmt.varDecl _ _ name init =>
    match init with
    | some e =>
      let g := generateExpression e g
      let (value, g) := g.generateTemp
      g.emit ⟨OpCode.STORE, value, "", name⟩
    | none => g.emit ⟨OpCode.STORE, "", "", name⟩
  | Stmt.funcDecl name _ _ body =>
    let g := g.emit ⟨OpCode.LABEL, name, "", ""⟩
    let g := generateStatement body g
    if h : g.instructions = [] then g.emit ⟨OpCode.RET, "", "", ""⟩
    else if (g.instructions.getLast h).opcode = OpCode.RET then g
    else g.emit ⟨OpCode.RET, "", "", ""⟩
  | Stmt.block stmts => generateStatementList stmts g
  | Stmt.ifStmt cond thenBranch elseBranch =>
    let (elseLabel, g) := g.generateLabel
    let (endLabel, g) := g.generateLabel
    let g := generateExpression cond g
    let g := g.emit ⟨OpCode.JE, elseLabel, "", ""⟩
    let g := generateStatement thenBranch g
    let g := g.emit ⟨OpCode.JMP, endLabel, "", ""⟩
    let g := g.emit ⟨OpCode.LABEL, elseLabel, "", ""⟩
    let g := match elseBranch with
      | some e => generateStatement e g
      | none => g
    g.emit ⟨OpCode.LABEL, endLabel, "", ""⟩
  | Stmt.whileStmt cond body =>
    let (startLabel, g) := g.generateLabel
    let (endLabel, g) := g.generateLabel
    let g := g.emit ⟨OpCode.LABEL, startLabel, "", ""⟩
    let g := generateExpression cond g
    let g := g.emit ⟨OpCode.JE, endLabel, "", ""⟩
    let g := generateStatement body g
    let g := g.emit ⟨OpCode.JMP, startLabel, "", ""⟩
    g.emit ⟨OpCode.LABEL, endLabel, "", ""⟩
  | Stmt.forStmt init cond inc body =>
    let (startLabel, g) := g.generateLabel
    let (endLabel, g) := g.generateLabel
    let g := match init with
      | some i => generateStatement i g
      | none => g
    let g := g.emit ⟨OpCode.LABEL, startLabel, "", ""⟩
    let g := match cond with
      | some c =>
        let g := generateExpression c g
        g.emit ⟨OpCode.JE, endLabel, "", ""⟩
      | none => g
    let g := generateStatement body g
    let g := match inc with
      | some i => generateExpression i g
      | none => g
    let g := g.emit ⟨OpCode.JMP, startLabel, "", ""⟩
    g.emit ⟨OpCode.LABEL, endLabel, "", ""⟩
  | Stmt.ret value =>
    let g := match value with
      | some v => generateExpression v g
      | none => g
    g.emit ⟨OpCode.RET, "", "", ""⟩
  | Stmt.exprStmt e => generateExpression e g

/-- The statement loops of `CodeGenerator::generate` / `generateBlock`. -/
def generateStatementList (stmts : List Stmt) (g : CG) : CG :=
  match stmts with
  | [] => g
  | s :: rest => generateStatementList rest (generateStatement s g)
end

/-- From `codegen.cpp`: `CodeGenerator::generate` on a fresh generator. -/
def generateProgram (stmts : List Stmt) : CG :=
  generateStatementList stmts {}

/-- From `codegen.cpp`: the body of `CodeGenerator::optimize`, translated
iterator-for-iterator: `done` is the already-scanned prefix (before `it`)
and `rest` starts at `it`; `erase` of a `LOAD`/`STORE` pair resumes the
scan at the element after the pair, `++it` moves one element across. -/
def optimizeGo (done : List Instruction) : List Instruction → List Instruction
  | [] => done
  | [i] => done ++ [i]
  | i :: j :: rest =>
    if i.opcode = OpCode.LOAD ∧ j.opcode = OpCode.STORE then optimizeGo done rest
    else optimizeGo (done ++ [i]) (j :: rest)

/-- From `codegen.cpp`: `CodeGenerator::optimize`. -/
def optimize (l : List Instruction) : List Instruction :=
  optimizeGo [] l

/-- One line of `CodeGenerator::dumpCode` (two leading spaces; the shape
depends on the opcode). -/
def dumpInstr (i : Instruction) : String :=
  "  " ++
  match i.opcode with
  | OpCode.LOAD => "LOAD " ++ i.arg1 ++ " -> " ++ i.result
  | OpCode.STORE => "STORE " ++ i.arg1 ++ " -> " ++ i.result
  | OpCode.ADD => "ADD " ++ i.arg1 ++ ", " ++ i.arg2 ++ " -> " ++ i.result
  | OpCode.SUB => "SUB " ++ i.arg1 ++ ", " ++ i.arg2 ++ " -> " ++ i.result
  | OpCode.MUL => "MUL " ++ i.arg1 ++ ", " ++ i.arg2 ++ " -> " ++ i.result
  | OpCode.DIV => "DIV " ++ i.arg1 ++ ", " ++ i.arg2 ++ " -> " ++ i.result
  | OpCode.CMP => "CMP " ++ i.arg1 ++ ", " ++ i.arg2 ++ " -> " ++ i.result
  | OpCode.JMP => "JMP " ++ i.arg1
  | OpCode.JE => "JE " ++ i.arg1
  | OpCode.JNE => "JNE " ++ i.arg1
  | OpCode.JG => "JG " ++ i.arg1
  | OpCode.JL => "JL " ++ i.arg1
  | OpCode.CALL => "CALL " ++ i.arg1
  | OpCode.RET => "RET"
  | OpCode.PUSH => "PUSH " ++ i.arg1
  | OpCode.POP => "POP"
  | OpCode.PRINT => "PRINT " ++ i.arg1
  | OpCode.LABEL => i.arg1 ++ ":"

/-! ## Lexer (`lexer.cpp`)

The scanner's cursor is modelled by the not-yet-consumed character list
(`rest`, the source from `position` on) plus the 1-based `line` counter;
the unused `column` member is omitted.  `peek()` is the head of `rest`,
`source[position + 1]` the second element, and `position + 1 <
source.length()` holds exactly when at least two characters remain. -/

/-- The lexer's cursor state. -/
structure LexState where
  rest : List Char
  line : Nat := 1
  deriving DecidableEq, Repr

/-- C `isspace` on the ASCII range, as used by `skipWhitespace`. -/
def isSpaceC (c : Char) : Bool :=
  c = ' ' || c = '\t' || c = '\n' || c = '\r' || c = '\x0b' || c = '\x0c'

/-- C `isalpha` on the ASCII range. -/
def isAlphaC (c : Char) : Bool :=
  ('a' ≤ c && c ≤ 'z') || ('A' ≤ c && c ≤ 'Z')

/-- C `isdigit`. -/
def isDigitC (c : Char) : Bool :=
  '0' ≤ c && c ≤ '9'

/-- C `isalnum`. -/
def isAlnumC (c : Char) : Bool :=
  isAlphaC c || isDigitC c

/-- From `lexer.cpp`: `Lexer::initializeKeywords` — the keyword table.
Note `"string"` maps to the token kind `STRING_LITERAL`. -/
def keywordTable : List (String × TokenType) :=
  [("int", TokenType.INT), ("float", TokenType.FLOAT), ("char", TokenType.CHAR),
   ("void", TokenType.VOID), ("bool", TokenType.BOOL),
   ("string", TokenType.STRING_LITERAL),
   ("if", TokenType.IF), ("else", TokenType.ELSE), ("while", TokenType.WHILE),
   ("for", TokenType.FOR), ("return", TokenType.RETURN),
   ("true", TokenType.TRUE), ("false", TokenType.FALSE),
   ("cout", TokenType.COUT), ("cin", TokenType.CIN), ("endl", TokenType.ENDL),
   ("using", TokenType.USING), ("namespace", TokenType.NAMESPACE),
   ("std", TokenType.STD), ("include", TokenType.INCLUDE)]

/-- The whitespace loop of `Lexer::skipWhitespace` (`advance` bumps the
line counter on a line feed). -/
def skipWhitespaceGo : List Char → Nat → List Char × Nat
  | [], ln => ([], ln)
  | c :: cs, ln =>
    if isSpaceC c then skipWhitespaceGo cs (if c = '\n' then ln + 1 else ln)
    else (c :: cs, ln)

/-- The single-line branch of `Lexer::skipComment`: consume up to but not
including the next line feed (or to end of input). -/
def skipLineCommentGo : List Char → List Char
  | [] => []
  | c :: cs => if c = '\n' then c :: cs else skipLineCommentGo cs

/-- The multi-line loop of `Lexer::skipComment`, entered after the `/`
and `*` were consumed.  The loop guard is `position + 1 <
source.length()`, i.e. it stops (without consuming) as soon as fewer than
two characters remain — on an unterminated comment the final character of
the source is left unconsumed. -/
def skipBlockCommentGo : List Char → Nat → List Char × Nat
  | [], ln => ([], ln)
  | [c], ln => ([c], ln)
  | c :: c2 :: cs, ln =>
    if c = '*' ∧ c2 = '/' then (cs, ln)
    else skipBlockCommentGo (c2 :: cs) (if c = '\n' then ln + 1 else ln)

/-- From `lexer.cpp`: `Lexer::skipComment`. -/
def skipComment (st : LexState) : LexState :=
  match st.rest with
  | '/' :: '/' :: cs => { st with rest := skipLineCommentGo ('/' :: '/' :: cs) }
  | '/' :: '*' :: cs =>
    let (r, ln) := skipBlockCommentGo cs st.line
    { rest := r, line := ln }
  | _ => st

/-- The read loop of `Lexer::identifier`: split off `[A-Za-z0-9_]*`. -/
def identifierGo : List Char → List Char × List Char
  | [] => ([], [])
  | c :: cs =>
    if isAlnumC c || c = '_' then
      let (lex, r) := identifierGo cs
      (c :: lex, r)
    else ([], c :: cs)

/-- The read loop of `Lexer::number`: digits with at most one embedded
dot; a second dot terminates the token before itself.  Returns the lexeme
characters, the remaining input, and the float flag. -/
def numberGo : List Char → Bool → List Char × List Char × Bool
  | [], isF => ([], [], isF)
  | c :: cs, isF =>
    if isDigitC c then
      let (lex, r, f) := numberGo cs isF
      (c :: lex, r, f)
    else if c = '.' then
      if isF then ([], c :: cs, isF)
      else
        let (lex, r, f) := numberGo cs true
        (c :: lex, r, f)
    else ([], c :: cs, isF)

/-- The scan loop of `Lexer::string` (after the opening quote): decode
the escape set, consume up to the closing quote, fail on end of input.
Returns the decoded value characters, the remaining input and the line. -/
def stringGo : List Char → Nat → Except String (List Char × List Char × Nat)
  | [], _ => Except.error "Unterminated string"
  | '"' :: cs, ln => Except.ok ([], cs, ln)
  | '\\' :: c :: cs, ln =>
    let decoded : Char :=
      if c = 'n' then '\n'
      else if c = 't' then '\t'
      else if c = 'r' then '\r'
      else if c = '\\' then '\\'
      else if c = '"' then '"'
      else c
    (stringGo cs (if c = '\n' then ln + 1 else ln)).map
      (fun (lex, r, ln') => (decoded :: lex, r, ln'))
  | ['\\'], _ => Except.error "Unterminated string"
  | c :: cs, ln =>
    (stringGo cs (if c = '\n' then ln + 1 else ln)).map
      (fun (lex, r, ln') => (c :: lex, r, ln'))

/-- From `lexer.cpp`: `Lexer::character` (after the opening quote):
decode one possibly escaped character, then require the closing quote. -/
def characterGo : List Char → Nat → Except String (String × List Char × Nat)
  | [], _ => Except.error "Invalid character literal"
  | '\\' :: c :: cs, ln =>
    let value : Char :=
      if c = 'n' then '\n'
      else if c = 't' then '\t'
      else if c = 'r' then '\r'
      else if c = '\\' then '\\'
      else if c = '\'' then '\''
      else c
    match cs with
    | '\'' :: cs' => Except.ok (String.mk [value], cs', if c = '\n' then ln + 1 else ln)
    | _ => Except.error "Invalid character literal"
  | ['\\'], _ => Except.error "Invalid character literal"
  | c :: cs, ln =>
    match cs with
    | '\'' :: cs' => Except.ok (String.mk [c], cs', if c = '\n' then ln + 1 else ln)
    | _ => Except.error "Invalid character literal"

/-- The directive-name read loop of `Lexer::preprocessorDirective`
(`isalpha` only — no digits or underscores). -/
def alphaGo : List Char → List Char × List Char
  | [] => ([], [])
  | c :: cs =>
    if isAlphaC c then
      let (lex, r) := alphaGo cs
      (c :: lex, r)
    else ([], c :: cs)

/-- The header read loop of `Lexer::preprocessorDirective`: consume up to
the terminator or end of input, then drop the terminator if present. -/
def headerGo (term : Char) : List Char → Nat → List Char × List Char × Nat
  | [], ln => ([], [], ln)
  | c :: cs, ln =>
    if c = term then ([], cs, ln)
    else
      let (h, r, ln') := headerGo term cs (if c = '\n' then ln + 1 else ln)
      (c :: h, r, ln')

/-- From `lexer.cpp`: `Lexer::preprocessorDirective` (the `#` is at the
head of `st.rest`). -/
def preprocessorDirective (st : LexState) : Token × LexState :=
  let (r1, ln1) := skipWhitespaceGo st.rest.tail st.line
  let (lexChars, r2) := alphaGo r1
  let lexeme := String.mk lexChars
  if lexeme = "include" then
    let (r3, ln3) := skipWhitespaceGo r2 ln1
    match r3 with
    | '<' :: cs =>
      let (h, r4, ln4) := headerGo '>' cs ln3
      (⟨TokenType.INCLUDE, String.mk h, ln4⟩, ⟨r4, ln4⟩)
    | '"' :: cs =>
      let (h, r4, ln4) := headerGo '"' cs ln3
      (⟨TokenType.INCLUDE, String.mk h, ln4⟩, ⟨r4, ln4⟩)
    | _ => (⟨TokenType.HASH, lexeme, ln3⟩, ⟨r3, ln3⟩)
  else (⟨TokenType.HASH, lexeme, ln1⟩, ⟨r2, ln1⟩)

/-- The operator / punctuation switch at the end of `Lexer::getNextToken`,
entered with `c` already consumed (`cs` is the input after it); two-character
operators are matched greedily via `match(...)`. -/
def punctToken (c : Char) (cs : List Char) (ln : Nat) :
    Except String (Token × LexState) :=
  let one (t : TokenType) (lx : String) : Except String (Token × LexState) :=
    Except.ok (⟨t, lx, ln⟩, ⟨cs, ln⟩)
  let two (t : TokenType) (lx : String) (cs' : List Char) :
      Except String (Token × LexState) :=
    Except.ok (⟨t, lx, ln⟩, ⟨cs', ln⟩)
  if c = '+' then
    match cs with
    | '+' :: r => two TokenType.INCREMENT "++" r
    | '=' :: r => two TokenType.PLUS_EQUAL "+=" r
    | _ => one TokenType.PLUS "+"
  else if c = '-' then
    match cs with
    | '-' :: r => two TokenType.DECREMENT "--" r
    | '=' :: r => two TokenType.MINUS_EQUAL "-=" r
    | '>' :: r => two TokenType.ARROW "->" r
    | _ => one TokenType.MINUS "-"
  else if c = '*' then
    match cs with
    | '=' :: r => two TokenType.MULTIPLY_EQUAL "*=" r
    | _ => one TokenType.MULTIPLY "*"
  else if c = '/' then
    match cs with
    | '=' :: r => two TokenType.DIVIDE_EQUAL "/=" r
    | _ => one TokenType.SLASH "/"
  else if c = '(' then one TokenType.LPAREN "("
  else if c = ')' then one TokenType.RPAREN ")"
  else if c = '{' then one TokenType.LBRACE (String.mk ['{'])
  else if c = '}' then one TokenType.RBRACE (String.mk ['}'])
  else if c = '[' then one TokenType.LBRACKET "["
  else if c = ']' then one TokenType.RBRACKET "]"
  else if c = ';' then one TokenType.SEMICOLON ";"
  else if c = ',' then one TokenType.COMMA ","
  else if c = '.' then one TokenType.DOT "."
  else if c = '&' then
    match cs with
    | '&' :: r => two TokenType.AND "&&" r
    | _ => one TokenType.AMPERSAND "&"
  else if c = '|' then
    match cs with
    | '|' :: r => two TokenType.OR "||" r
    | _ => one TokenType.PIPE "|"
  else if c = '<' then
    match cs with
    | '=' :: r => two TokenType.LESS_EQUAL "<=" r
    | '<' :: r => two TokenType.LEFT_SHIFT "<<" r
    | _ => one TokenType.LESS "<"
  else if c = '>' then
    match cs with
    | '=' :: r => two TokenType.GREATER_EQUAL ">=" r
    | '>' :: r => two TokenType.RIGHT_SHIFT ">>" r
    | _ => one TokenType.GREATER ">"
  else if c = '=' then
    match cs with
    | '=' :: r => two TokenType.EQUAL_EQUAL "==" r
    | _ => one TokenType.EQUAL "="
  else if c = '!' then
    match cs with
    | '=' :: r => two TokenType.NOT_EQUAL "!=" r
    | _ => one TokenType.NOT "!"
  else if c = '"' then
    (stringGo cs ln).map
      (fun (lex, r, ln') => (⟨TokenType.STRING_LITERAL, String.mk lex, ln'⟩, ⟨r, ln'⟩))
  else if c = '\'' then
    (characterGo cs ln).map
      (fun (v, r, ln') => (⟨TokenType.CHAR_LITERAL, v, ln'⟩, ⟨r, ln'⟩))
  else Except.error ("Unexpected character: " ++ String.mk [c])

/-- From `lexer.cpp`: `Lexer::getNextToken`; the self-recursion after a
skipped comment is bounded by `fuel` (every comment skip consumes at
least two characters, so `rest.length + 1` is always enough fuel). -/
def getNextToken (fuel : Nat) (st : LexState) : Except String (Token × LexState) :=
  match fuel with
  | 0 => Except.error "lexer fuel exhausted"
  | fuel + 1 =>
    let (r, ln) := skipWhitespaceGo st.rest st.line
    match r with
    | [] => Except.ok (⟨TokenType.END_OF_FILE, "", ln⟩, ⟨[], ln⟩)
    | c :: cs =>
      let isCommentStart : Bool :=
        c = '/' && (match cs with
                    | c2 :: _ => c2 = '/' || c2 = '*'
                    | [] => false)
      if isCommentStart then getNextToken fuel (skipComment ⟨c :: cs, ln⟩)
      else if c = '#' then Except.ok (preprocessorDirective ⟨c :: cs, ln⟩)
      else if isAlphaC c || c = '_' then
        let (lexChars, r2) := identifierGo (c :: cs)
        let lexeme := String.mk lexChars
        match List.lookup lexeme keywordTable with
        | some k => Except.ok (⟨k, lexeme, ln⟩, ⟨r2, ln⟩)
        | none => Except.ok (⟨TokenType.IDENTIFIER, lexeme, ln⟩, ⟨r2, ln⟩)
      else if isDigitC c then
        let (lexChars, r2, isF) := numberGo (c :: cs) false
        Except.ok
          (⟨if isF then TokenType.FLOAT_LITERAL else TokenType.INTEGER_LITERAL,
            String.mk lexChars, ln⟩, ⟨r2, ln⟩)
      else punctToken c cs ln

/-- The token-pulling loop of the driver: collect tokens until the
`END_OF_FILE` sentinel (which is kept as the final list element). -/
def lexAll (fuel : Nat) (st : LexState) : Except String (List Token) :=
  match fuel with
  | 0 => Except.error "lexer fuel exhausted"
  | fuel + 1 =>
    match getNextToken (st.rest.length + 1) st with
    | Except.error e => Except.error e
    | Except.ok (tok, st') =>
      if tok.type = TokenType.END_OF_FILE then Except.ok [tok]
      else (lexAll fuel st').map (fun ts => tok :: ts)

/-- Lex a whole source string into its token list. -/
def tokenize (s : String) : Except String (List Token) :=
  lexAll (s.length + 2) ⟨s.data, 1⟩

example : tokenize "int x = 5;" =
    Except.ok [⟨TokenType.INT, "int", 1⟩, ⟨TokenType.IDENTIFIER, "x", 1⟩,
               ⟨TokenType.EQUAL, "=", 1⟩, ⟨TokenType.INTEGER_LITERAL, "5", 1⟩,
               ⟨TokenType.SEMICOLON, ";", 1⟩, ⟨TokenType.END_OF_FILE, "", 1⟩] := by
  rfl

/-! ## Parser (`parser.cpp`)

The parser's mutable cursor (`currentToken` plus the lexer it pulls from)
is modelled by the list of not-yet-consumed tokens: the current token is
the head, `advance()` is `tail`, and the `END_OF_FILE` sentinel is
repeated forever once reached (an empty list reads as `END_OF_FILE`).
A C++ `throw` becomes an `Except.error` carrying the message and the
token state at the throw point, so that each `catch (…) { synchronize();
throw; }` handler can resynchronise that state before repropagating.
The recursive-descent functions take an explicit fuel argument
(structural recursion); fuel exhaustion is an artifact of the embedding
and every run below instantiates fuel generously. -/

/-- A thrown `std::runtime_error` together with the parser's token state
at the throw point. -/
structure PErr where
  msg : String
  toks : List Token
  deriving Repr


/-- The token a parser at end of input reads (`Token()` default). -/
def eofToken : Token := ⟨TokenType.END_OF_FILE, "", 0⟩

/-- The parser's `currentToken`. -/
def curTok (ts : List Token) : Token := ts.headD eofToken

/-- `currentToken.type` (the `check` helper compares against this). -/
def curType (ts : List Token) : TokenType := (curTok ts).type

/-- `currentToken.lexeme`. -/
def curLexeme (ts : List Token) : String := (curTok ts).lexeme

/-- `Parser::advance()`. -/
def adv : List Token → List Token
  | [] => []
  | _ :: rest => rest

/-- The scan loop of `Parser::synchronize` (entered after the initial
`advance()`): stop past a `;` or `}`, or in front of a statement keyword,
or at `END_OF_FILE`. -/
def synchronizeLoop : List Token → List Token
  | [] => []
  | t :: rest =>
    if t.type = TokenType.END_OF_FILE then t :: rest
    else if t.type = TokenType.SEMICOLON ∨ t.type = TokenType.RBRACE then rest
    else
      match t.type with
      | TokenType.INT | TokenType.FLOAT | TokenType.CHAR | TokenType.VOID
      | TokenType.IF | TokenType.WHILE | TokenType.FOR | TokenType.RETURN => t :: rest
      | _ => synchronizeLoop rest

/-- From `parser.cpp`: `Parser::synchronize`. -/
def synchronize (ts : List Token) : List Token :=
  synchronizeLoop (adv ts)

/-- A `catch (const std::runtime_error&) { synchronize(); throw; }`
handler: resynchronise the token state carried by the error and rethrow. -/
def withSync {α : Type} (r : Except PErr α) : Except PErr α :=
  match r with
  | Except.error e => Except.error ⟨e.msg, synchronize e.toks⟩
  | Except.ok v => Except.ok v

/-- `throw std::runtime_error(msg)` at token state `ts`. -/
def perr {α : Type} (msg : String) (ts : List Token) : Except PErr α :=
  Except.error ⟨msg, ts⟩

/-- From `parser.cpp`: `Parser::consume`. -/
def consume (t : TokenType) (msg : String) (ts : List Token) :
    Except PErr (List Token) :=
  if curType ts = t then Except.ok (adv ts) else Except.error ⟨msg, ts⟩

/-- The `while (match(SEMICOLON));` skip at the top of `parseStatement`. -/
def skipSemis : List Token → List Token
  | [] => []
  | t :: rest => if t.type = TokenType.SEMICOLON then skipSemis rest else t :: rest

/-- The parser-side re-processing of a `CHAR_LITERAL` lexeme in
`parsePrimary` (strip first/last character, decode one leading escape).
The lexer already delivers decoded one-character values, so the
`length >= 2` guard makes this a no-op on lexer-produced tokens. -/
def processCharLexeme (v : String) : String :=
  let cs := v.data
  if cs.length ≥ 2 then
    match (cs.drop 1).dropLast with
    | '\\' :: c :: rest =>
      if c = 'n' then "\n"
      else if c = 't' then "\t"
      else if c = '\\' then "\\"
      else if c = '\'' then "'"
      else if c = '"' then "\""
      else String.mk (c :: rest)
    | s => String.mk s
  else v

/-- The escape loop of the `STRING_LITERAL` re-processing in
`parsePrimary` (a backslash with a following character decodes it; a
trailing lone backslash is kept). -/
def procStrGo : List Char → List Char
  | [] => []
  | '\\' :: c :: rest =>
    (if c = 'n' then '\n'
     else if c = 't' then '\t'
     else if c = '\\' then '\\'
     else if c = '\'' then '\''
     else if c = '"' then '"'
     else c) :: procStrGo rest
  | c :: rest => c :: procStrGo rest

/-- The parser-side re-processing of a `STRING_LITERAL` lexeme in
`parsePrimary`: strip first/last character, then decode escapes. -/
def processStringLexeme (v : String) : String :=
  if v.data.length ≥ 2 then String.mk (procStrGo ((v.data.drop 1).dropLast))
  else v

/-- The argument-recovery skip in `parsePrimary`'s call loop:
`while (!RPAREN && !COMMA && !EOF) advance();`. -/
def skipToArgBoundary : List Token → List Token
  | [] => []
  | t :: rest =>
    if t.type = TokenType.RPAREN ∨ t.type = TokenType.COMMA ∨
        t.type = TokenType.END_OF_FILE then t :: rest
    else skipToArgBoundary rest

/-- The header accumulation loop of `Parser::parsePreprocessorDirective`:
concatenate lexemes up to the `>` (or end of file). -/
def includeHeaderGo : List Token → String → String × List Token
  | [], acc => (acc, [])
  | t :: rest, acc =>
    if t.type = TokenType.GREATER ∨ t.type = TokenType.END_OF_FILE then (acc, t :: rest)
    else includeHeaderGo rest (acc ++ t.lexeme)

/-- From `parser.cpp`: `Parser::parsePreprocessorDirective` (no catch
handler; the `#` token is current).  Note that in the `"header"` branch
the code reads `currentToken.lexeme` after `match` already advanced past
the string literal, so the recorded header is the following token's
lexeme. -/
def parsePreprocessorDirective (ts : List Token) : Except PErr (Stmt × List Token) :=
  let ts1 := adv ts
  if curType ts1 = TokenType.INCLUDE then
    let ts2 := adv ts1
    if curType ts2 = TokenType.LESS then
      let (header, ts3) := includeHeaderGo (adv ts2) ""
      match consume TokenType.GREATER "Expect '>' after include path" ts3 with
      | Except.error e => Except.error e
      | Except.ok ts4 =>
        Except.ok (Stmt.exprStmt (Expr.literal header TokenType.STRING_LITERAL), ts4)
    else if curType ts2 = TokenType.STRING_LITERAL then
      Except.ok
        (Stmt.exprStmt (Expr.literal (curLexeme (adv ts2)) TokenType.STRING_LITERAL),
         adv ts2)
    else perr "Expect header name after #include" ts2
  else perr "Unsupported preprocessor directive" ts1

/-- From `parser.cpp`: `Parser::parseUsingDirective` (no catch handler). -/
def parseUsingDirective (ts : List Token) : Except PErr (Stmt × List Token) :=
  let ts1 := adv ts
  if curType ts1 = TokenType.NAMESPACE then
    let ts2 := adv ts1
    if curType ts2 = TokenType.STD then
      match consume TokenType.SEMICOLON "Expect ';' after namespace std" (adv ts2) with
      | Except.error e => Except.error e
      | Except.ok ts3 =>
        Except.ok (Stmt.exprStmt (Expr.ident "using_namespace_std"), ts3)
    else perr "Unsupported using directive" ts2
  else perr "Unsupported using directive" ts1

/-- The parameter loop of `parseFunctionOrVariableDeclaration`
(`do { … } while (match(COMMA))`); the declared parameter type is the
current token's kind, with the `"string"` identifier and `*` pointer
adjustments. -/
def parseParamsLoop : Nat → List (String × TokenType) → List Token →
    Except PErr (List (String × TokenType) × List Token)
  | 0, _, ts => perr "parser fuel exhausted" ts
  | f + 1, params, ts =>
    let pty0 := curType ts
    let pty := if pty0 = TokenType.IDENTIFIER ∧ curLexeme ts = "string" then
                 TokenType.STRING_LITERAL else pty0
    let ts1 := adv ts
    let (isPtr, ts2) :=
      if curType ts1 = TokenType.MULTIPLY then (true, adv ts1) else (false, ts1)
    if curType ts2 = TokenType.IDENTIFIER then
      let pname := curLexeme ts2
      let ts3 := adv ts2
      let params' := params ++ [(pname, if isPtr then TokenType.POINTER else pty)]
      if curType ts3 = TokenType.COMMA then parseParamsLoop f params' (adv ts3)
      else Except.ok (params', ts3)
    else perr "Expect parameter name." ts2

mutual

/-- From `parser.cpp`: `Parser::parseExpression`. -/
def parseExpression : Nat → List Token → Except PErr (Expr × List Token)
  | 0, ts => perr "parser fuel exhausted" ts
  | f + 1, ts => withSync (parseAssignment f ts)

/-- From `parser.cpp`: `Parser::parseAssignment`.  A compound assignment
`x op= e` with identifier target is rewritten to
`Assign(x, =, Binary(Identifier(x), op, e))`; a non-identifier target
throws `Invalid assignment target.`; a trailing `++`/`--` on an
identifier builds a unary node. -/
def parseAssignment : Nat → List Token → Except PErr (Expr × List Token)
  | 0, ts => perr "parser fuel exhausted" ts
  | f + 1, ts =>
    withSync
      (match parseLogicalOr f ts with
       | Except.error e => Except.error e
       | Except.ok (expr, ts1) =>
         let c := curType ts1
         if c = TokenType.EQUAL ∨ c = TokenType.PLUS_EQUAL ∨
             c = TokenType.MINUS_EQUAL ∨ c = TokenType.MULTIPLY_EQUAL ∨
             c = TokenType.DIVIDE_EQUAL then
           let ts2 := adv ts1
           if c ≠ TokenType.EQUAL then
             match expr with
             | Expr.ident name =>
               match parseAssignment f ts2 with
               | Except.error e => Except.error e
               | Except.ok (right, ts3) =>
                 let binaryOp :=
                   if c = TokenType.PLUS_EQUAL then TokenType.PLUS
                   else if c = TokenType.MINUS_EQUAL then TokenType.MINUS
                   else if c = TokenType.MULTIPLY_EQUAL then TokenType.MULTIPLY
                   else TokenType.SLASH
                 Except.ok
                   (Expr.assign name TokenType.EQUAL
                     (Expr.binary (Expr.ident name) binaryOp right), ts3)
             | _ => perr "Invalid assignment target." ts2
           else
             match expr with
             | Expr.ident name =>
               match parseAssignment f ts2 with
               | Except.error e => Except.error e
               | Except.ok (value, ts3) =>
                 Except.ok (Expr.assign name c value, ts3)
             | _ => perr "Invalid assignment target." ts2
         else if c = TokenType.INCREMENT ∨ c = TokenType.DECREMENT then
           match expr with
           | Expr.ident name =>
             Except.ok (Expr.unary c (Expr.ident name), adv ts1)
           | _ => perr "Invalid increment/decrement target." ts1
         else Except.ok (expr, ts1))

/-- From `parser.cpp`: `Parser::parseLogicalOr`. -/
def parseLogicalOr : Nat → List Token → Except PErr (Expr × List Token)
  | 0, ts => perr "parser fuel exhausted" ts
  | f + 1, ts =>
    withSync
      (match parseLogicalAnd f ts with
       | Except.error e => Except.error e
       | Except.ok (e, ts1) => parseOrLoop f e ts1)

/-- The `while (check(OR))` loop of `parseLogicalOr`. -/
def parseOrLoop : Nat → Expr → List Token → Except PErr (Expr × List Token)
  | 0, _, ts => perr "parser fuel exhausted" ts
  | f + 1, e, ts =>
    if curType ts = TokenType.OR then
      match parseLogicalAnd f (adv ts) with
      | Except.error e' => Except.error e'
      | Except.ok (r, ts2) => parseOrLoop f (Expr.logical e TokenType.OR r) ts2
    else Except.ok (e, ts)

/-- From `parser.cpp`: `Parser::parseLogicalAnd`. -/
def parseLogicalAnd : Nat → List Token → Except PErr (Expr × List Token)
  | 0, ts => perr "parser fuel exhausted" ts
  | f + 1, ts =>
    withSync
      (match parseEquality f ts with
       | Except.error e => Except.error e
       | Except.ok (e, ts1) => parseAndLoop f e ts1)

/-- The `while (check(AND))` loop of `parseLogicalAnd`. -/
def parseAndLoop : Nat → Expr → List Token → Except PErr (Expr × List Token)
  | 0, _, ts => perr "parser fuel exhausted" ts
  | f + 1, e, ts =>
    if curType ts = TokenType.AND then
      match parseEquality f (adv ts) with
      | Except.error e' => Except.error e'
      | Except.ok (r, ts2) => parseAndLoop f (Expr.logical e TokenType.AND r) ts2
    else Except.ok (e, ts)

/-- From `parser.cpp`: `Parser::parseEquality`. -/
def parseEquality : Nat → List Token → Except PErr (Expr × List Token)
  | 0, ts => perr "parser fuel exhausted" ts
  | f + 1, ts =>
    withSync
      (match parseComparison f ts with
       | Except.error e => Except.error e
       | Except.ok (e, ts1) => parseEqLoop f e ts1)

/-- The `==` / `!=` loop of `parseEquality`. -/
def parseEqLoop : Nat → Expr → List Token → Except PErr (Expr × List Token)
  | 0, _, ts => perr "parser fuel exhausted" ts
  | f + 1, e, ts =>
    let c := curType ts
    if c = TokenType.EQUAL_EQUAL ∨ c = TokenType.NOT_EQUAL then
      match parseComparison f (adv ts) with
      | Except.error e' => Except.error e'
      | Except.ok (r, ts2) => parseEqLoop f (Expr.binary e c r) ts2
    else Except.ok (e, ts)

/-- From `parser.cpp`: `Parser::parseComparison`. -/
def parseComparison : Nat → List Token → Except PErr (Expr × List Token)
  | 0, ts => perr "parser fuel exhausted" ts
  | f + 1, ts =>
    withSync
      (match parseTerm f ts with
       | Except.error e => Except.error e
       | Except.ok (e, ts1) => parseCmpLoop f e ts1)

/-- The `<` / `<=` / `>` / `>=` loop of `parseComparison`. -/
def parseCmpLoop : Nat → Expr → List Token → Except PErr (Expr × List Token)
  | 0, _, ts => perr "parser fuel exhausted" ts
  | f + 1, e, ts =>
    let c := curType ts
    if c = TokenType.LESS ∨ c = TokenType.LESS_EQUAL ∨
        c = TokenType.GREATER ∨ c = TokenType.GREATER_EQUAL then
      match parseTerm f (adv ts) with
      | Except.error e' => Except.error e'
      | Except.ok (r, ts2) => parseCmpLoop f (Expr.binary e c r) ts2
    else Except.ok (e, ts)

/-- From `parser.cpp`: `Parser::parseTerm`. -/
def parseTerm : Nat → List Token → Except PErr (Expr × List Token)
  | 0, ts => perr "parser fuel exhausted" ts
  | f + 1, ts =>
    withSync
      (match parseFactor f ts with
       | Except.error e => Except.error e
       | Except.ok (e, ts1) => parseTermLoop f e ts1)

/-- The `+` / `-` loop of `parseTerm`. -/
def parseTermLoop : Nat → Expr → List Token → Except PErr (Expr × List Token)
  | 0, _, ts => perr "parser fuel exhausted" ts
  | f + 1, e, ts =>
    let c := curType ts
    if c = TokenType.PLUS ∨ c = TokenType.MINUS then
      match parseFactor f (adv ts) with
      | Except.error e' => Except.error e'
      | Except.ok (r, ts2) => parseTermLoop f (Expr.binary e c r) ts2
    else Except.ok (e, ts)

/-- From `parser.cpp`: `Parser::parseFactor`. -/
def parseFactor : Nat → List Token → Except PErr (Expr × List Token)
  | 0, ts => perr "parser fuel exhausted" ts
  | f + 1, ts =>
    withSync
      (match parsePrimary f ts with
       | Except.error e => Except.error e
       | Except.ok (e, ts1) => parseFactorLoop f e ts1)

/-- The `*` / `/` loop of `parseFactor`. -/
def parseFactorLoop : Nat → Expr → List Token → Except PErr (Expr × List Token)
  | 0, _, ts => perr "parser fuel exhausted" ts
  | f + 1, e, ts =>
    let c := curType ts
    if c = TokenType.MULTIPLY ∨ c = TokenType.SLASH then
      match parsePrimary f (adv ts) with
      | Except.error e' => Except.error e'
      | Except.ok (r, ts2) => parseFactorLoop f (Expr.binary e c r) ts2
    else Except.ok (e, ts)

/-- From `parser.cpp`: `Parser::parsePrimary`.  (The C++ `if (!expr)
throw …` null checks are dead code — sub-parsers throw instead of
returning null — and are omitted.) -/
def parsePrimary : Nat → List Token → Except PErr (Expr × List Token)
  | 0, ts => perr "parser fuel exhausted" ts
  | f + 1, ts =>
    withSync
      (let c := curType ts
       if c = TokenType.NOT ∨ c = TokenType.MULTIPLY ∨ c = TokenType.AMPERSAND ∨
           c = TokenType.INCREMENT ∨ c = TokenType.DECREMENT ∨
           c = TokenType.PLUS ∨ c = TokenType.MINUS then
         match parsePrimary f (adv ts) with
         | Except.error e => Except.error e
         | Except.ok (e, ts2) => Except.ok (Expr.unary c e, ts2)
       else if c = TokenType.TRUE then
         Except.ok (Expr.literal "true" TokenType.BOOL_LITERAL, adv ts)
       else if c = TokenType.FALSE then
         Except.ok (Expr.literal "false" TokenType.BOOL_LITERAL, adv ts)
       else if c = TokenType.INTEGER_LITERAL ∨ c = TokenType.FLOAT_LITERAL then
         Except.ok (Expr.literal (curLexeme ts) c, adv ts)
       else if c = TokenType.CHAR_LITERAL then
         Except.ok (Expr.literal (processCharLexeme (curLexeme ts))
           TokenType.CHAR_LITERAL, adv ts)
       else if c = TokenType.STRING_LITERAL then
         Except.ok (Expr.literal (processStringLexeme (curLexeme ts))
           TokenType.STRING_LITERAL, adv ts)
       else if c = TokenType.IDENTIFIER then
         let name := curLexeme ts
         let ts1 := adv ts
         if curType ts1 = TokenType.INCREMENT ∨ curType ts1 = TokenType.DECREMENT then
           Except.ok (Expr.unary (curType ts1) (Expr.ident name), adv ts1)
         else if curType ts1 = TokenType.LPAREN then
           let ts2 := adv ts1
           match (if curType ts2 = TokenType.RPAREN then
                    Except.ok (([] : List Expr), ts2)
                  else parseArgsLoop f [] ts2) with
           | Except.error e => Except.error e
           | Except.ok (args, ts3) =>
             match consume TokenType.RPAREN "Expect ')' after arguments." ts3 with
             | Except.error e => Except.error e
             | Except.ok ts4 => Except.ok (Expr.call name args, ts4)
         else if curType ts1 = TokenType.LEFT_SHIFT ∨
             curType ts1 = TokenType.RIGHT_SHIFT then
           parseStreamLoop f (Expr.ident name) ts1
         else Except.ok (Expr.ident name, ts1)
       else if c = TokenType.LPAREN then
         match parseExpression f (adv ts) with
         | Except.error e => Except.error e
         | Except.ok (e, ts2) =>
           match consume TokenType.RPAREN "Expect ')' after expression." ts2 with
           | Except.error e' => Except.error e'
           | Except.ok ts3 => Except.ok (e, ts3)
       else perr "Expect expression." ts)

/-- The argument loop of `parsePrimary`'s call branch
(`do { … } while (!check(RPAREN) && !check(END_OF_FILE))`); its internal
catch swallows argument errors and skips to the next `,` or `)`. -/
def parseArgsLoop : Nat → List Expr → List Token → Except PErr (List Expr × List Token)
  | 0, _, ts => perr "parser fuel exhausted" ts
  | f + 1, args, ts =>
    let step : List Expr × List Token :=
      if curType ts = TokenType.COMMA then (args, adv ts)
      else
        match parseExpression f ts with
        | Except.error e =>
          let tsk := skipToArgBoundary e.toks
          (args, if curType tsk = TokenType.COMMA then adv tsk else tsk)
        | Except.ok (arg, ts2) => (args ++ [arg], ts2)
    let (args', ts') := step
    if curType ts' = TokenType.RPAREN ∨ curType ts' = TokenType.END_OF_FILE then
      Except.ok (args', ts')
    else parseArgsLoop f args' ts'

/-- The stream-chain loop of `parsePrimary` (`do { … } while (<< or >>)`);
entered with the current token `<<` or `>>`.  `endl` is consumed directly
as `Identifier("endl")`; any other right operand is a full
`parseExpression` call. -/
def parseStreamLoop : Nat → Expr → List Token → Except PErr (Expr × List Token)
  | 0, _, ts => perr "parser fuel exhausted" ts
  | f + 1, left, ts =>
    let op := curType ts
    let ts1 := adv ts
    if curType ts1 = TokenType.ENDL then
      let left' := Expr.binary left op (Expr.ident "endl")
      let ts2 := adv ts1
      if curType ts2 = TokenType.LEFT_SHIFT ∨ curType ts2 = TokenType.RIGHT_SHIFT then
        parseStreamLoop f left' ts2
      else Except.ok (left', ts2)
    else
      match parseExpression f ts1 with
      | Except.error e => Except.error e
      | Except.ok (right, ts2) =>
        let left' := Expr.binary left op right
        if curType ts2 = TokenType.LEFT_SHIFT ∨ curType ts2 = TokenType.RIGHT_SHIFT then
          parseStreamLoop f left' ts2
        else Except.ok (left', ts2)

/-- From `parser.cpp`: `Parser::parseStatement`. -/
def parseStatement : Nat → List Token → Except PErr (Stmt × List Token)
  | 0, ts => perr "parser fuel exhausted" ts
  | f + 1, ts0 =>
    withSync
      (let ts := skipSemis ts0
       let c := curType ts
       if c = TokenType.HASH then parsePreprocessorDirective ts
       else if c = TokenType.USING then parseUsingDirective ts
       else if c = TokenType.RETURN then do
         let ts1 := adv ts
         let (value, ts2) ←
           if curType ts1 = TokenType.SEMICOLON then
             Except.ok ((none : Option Expr), ts1)
           else
             match parseExpression f ts1 with
             | Except.error e => Except.error e
             | Except.ok (v, ts') => Except.ok (some v, ts')
         let ts3 ← consume TokenType.SEMICOLON "Expect ';' after return value." ts2
         Except.ok (Stmt.ret value, ts3)
       else if c = TokenType.IF then do
         let ts1 := adv ts
         let ts2 ← consume TokenType.LPAREN "Expect '(' after 'if'." ts1
         let (cond, ts3) ← parseExpression f ts2
         let ts4 ← consume TokenType.RPAREN "Expect ')' after if condition." ts3
         let ts5 ← consume TokenType.LBRACE "Expect '\x7b' before if body." ts4
         let (thenB, ts6) ← parseBlock f ts5
         let ts7 ← consume TokenType.RBRACE "Expect '\x7d' after if body." ts6
         if curType ts7 = TokenType.ELSE then do
           let ts8 := adv ts7
           let ts9 ← consume TokenType.LBRACE "Expect '\x7b' before else body." ts8
           let (elseB, ts10) ← parseBlock f ts9
           let ts11 ← consume TokenType.RBRACE "Expect '\x7d' after else body." ts10
           Except.ok (Stmt.ifStmt cond thenB (some elseB), ts11)
         else Except.ok (Stmt.ifStmt cond thenB none, ts7)
       else if c = TokenType.WHILE then do
         let ts1 := adv ts
         let ts2 ← consume TokenType.LPAREN "Expect '(' after 'while'." ts1
         let (cond, ts3) ← parseExpression f ts2
         let ts4 ← consume TokenType.RPAREN "Expect ')' after condition." ts3
         let ts5 ← consume TokenType.LBRACE "Expect '\x7b' before while body." ts4
         let (body, ts6) ← parseBlock f ts5
         let ts7 ← consume TokenType.RBRACE "Expect '\x7d' after while body." ts6
         Except.ok (Stmt.whileStmt cond body, ts7)
       else if c = TokenType.FOR then do
         let ts1 := adv ts
         let ts2 ← consume TokenType.LPAREN "Expect '(' after 'for'." ts1
         let (ini, ts3) ←
           if curType ts2 = TokenType.SEMICOLON then
             Except.ok ((none : Option Stmt), adv ts2)
           else if curType ts2 = TokenType.INT ∨ curType ts2 = TokenType.FLOAT ∨
               curType ts2 = TokenType.CHAR ∨ curType ts2 = TokenType.BOOL ∨
               curType ts2 = TokenType.STRING_LITERAL ∨
               (curType ts2 = TokenType.IDENTIFIER ∧ curLexeme ts2 = "string") then do
             let (s, ts') ← parseFuncOrVarDeclaration f ts2
             Except.ok (some s, ts')
           else do
             let (e, ts') ← parseExpression f ts2
             let ts'' ← consume TokenType.SEMICOLON "Expect ';' after for initializer." ts'
             Except.ok (some (Stmt.exprStmt e), ts'')
         let (cond, ts4) ←
           if curType ts3 = TokenType.SEMICOLON then
             Except.ok ((none : Option Expr), ts3)
           else do
             let (e, ts') ← parseExpression f ts3
             Except.ok (some e, ts')
         let ts5 ← consume TokenType.SEMICOLON "Expect ';' after for condition." ts4
         let (inc, ts6) ←
           if curType ts5 = TokenType.RPAREN then
             Except.ok ((none : Option Expr), ts5)
           else do
             let (e, ts') ← parseExpression f ts5
             Except.ok (some e, ts')
         let ts7 ← consume TokenType.RPAREN "Expect ')' after for clauses." ts6
         let ts8 ← consume TokenType.LBRACE "Expect '\x7b' before for body." ts7
         let (body, ts9) ← parseBlock f ts8
         let ts10 ← consume TokenType.RBRACE "Expect '\x7d' after for body." ts9
         Except.ok (Stmt.forStmt ini cond inc body, ts10)
       else if c = TokenType.INT ∨ c = TokenType.FLOAT ∨ c = TokenType.CHAR ∨
           c = TokenType.VOID ∨ c = TokenType.BOOL ∨ c = TokenType.STRING_LITERAL ∨
           (c = TokenType.IDENTIFIER ∧ curLexeme ts = "string") then
         parseFuncOrVarDeclaration f ts
       else do
         let (e, ts1) ← parseExpression f ts
         let ts2 ← consume TokenType.SEMICOLON "Expect ';' after expression." ts1
         Except.ok (Stmt.exprStmt e, ts2))

/-- From `parser.cpp`: `Parser::parseBlock` (no catch handler). -/
def parseBlock : Nat → List Token → Except PErr (Stmt × List Token)
  | 0, ts => perr "parser fuel exhausted" ts
  | f + 1, ts => parseBlockLoop f [] ts

/-- The statement loop of `parseBlock` (until `}` or end of file). -/
def parseBlockLoop : Nat → List Stmt → List Token → Except PErr (Stmt × List Token)
  | 0, _, ts => perr "parser fuel exhausted" ts
  | f + 1, acc, ts =>
    if curType ts = TokenType.RBRACE ∨ curType ts = TokenType.END_OF_FILE then
      Except.ok (Stmt.block acc, ts)
    else
      match parseStatement f ts with
      | Except.error e => Except.error e
      | Except.ok (s, ts1) => parseBlockLoop f (acc ++ [s]) ts1

/-- From `parser.cpp`: `Parser::parseFunctionOrVariableDeclaration`.  The
`"string"` identifier is treated as the `STRING_LITERAL` type; a `*`
makes a pointer declaration; an `(` after the name parses a function,
otherwise one or more comma-separated variable declarators follow.  A
single declarator is returned bare, several are wrapped in a synthetic
block.  (The dead `if (!initializer) throw …` null checks are omitted.) -/
def parseFuncOrVarDeclaration : Nat → List Token → Except PErr (Stmt × List Token)
  | 0, ts => perr "parser fuel exhausted" ts
  | f + 1, ts =>
    withSync
      (let ty0 := curType ts
       let ty := if ty0 = TokenType.IDENTIFIER ∧ curLexeme ts = "string" then
                   TokenType.STRING_LITERAL else ty0
       let ts1 := adv ts
       let (isPtr, ts2) :=
         if curType ts1 = TokenType.MULTIPLY then (true, adv ts1) else (false, ts1)
       if curType ts2 = TokenType.IDENTIFIER then
         let name := curLexeme ts2
         let ts3 := adv ts2
         if curType ts3 = TokenType.LPAREN then do
           let ts4 := adv ts3
           let (params, ts5) ←
             if curType ts4 = TokenType.RPAREN then
               Except.ok (([] : List (String × TokenType)), ts4)
             else parseParamsLoop f [] ts4
           let ts6 ← consume TokenType.RPAREN "Expect ')' after parameters." ts5
           let ts7 ← consume TokenType.LBRACE "Expect '\x7b' before function body." ts6
           let (body, ts8) ← parseBlock f ts7
           let ts9 ← consume TokenType.RBRACE "Expect '\x7d' after function body." ts8
           Except.ok (Stmt.funcDecl name ty params body, ts9)
         else do
           let (ini, ts4) ←
             if curType ts3 = TokenType.EQUAL then
               match withSync (parseExpression f (adv ts3)) with
               | Except.error e => Except.error e
               | Except.ok (e, ts') => Except.ok (some e, ts')
             else Except.ok ((none : Option Expr), ts3)
           let (decls, ts5) ←
             parseDeclLoop f ty isPtr [Stmt.varDecl ty isPtr name ini] ts4
           if curType ts5 = TokenType.SEMICOLON then
             let ts6 := adv ts5
             match decls with
             | [single] => Except.ok (single, ts6)
             | _ => Except.ok (Stmt.block decls, ts6)
           else perr "Expect ';' after variable declaration." ts5
       else perr "Expect identifier after type." ts2)

/-- The `while (match(COMMA))` multi-declarator loop of
`parseFunctionOrVariableDeclaration`; every declarator shares the first
declarator's type and pointer flag. -/
def parseDeclLoop : Nat → TokenType → Bool → List Stmt → List Token → Except PErr (List Stmt × List Token)
  | 0, _, _, _, ts => perr "parser fuel exhausted" ts
  | f + 1, ty, isPtr, decls, ts =>
    if curType ts = TokenType.COMMA then
      let ts1 := adv ts
      if curType ts1 = TokenType.IDENTIFIER then do
        let nm := curLexeme ts1
        let ts2 := adv ts1
        let (ini, ts3) ←
          if curType ts2 = TokenType.EQUAL then
            match withSync (parseExpression f (adv ts2)) with
            | Except.error e => Except.error e
            | Except.ok (e, ts') => Except.ok (some e, ts')
          else Except.ok ((none : Option Expr), ts2)
        parseDeclLoop f ty isPtr (decls ++ [Stmt.varDecl ty isPtr nm ini]) ts3
      else perr "Expect identifier after ','." ts1
    else Except.ok (decls, ts)

end

/-- From `parser.cpp`: the top-level loop of `Parser::parse`: skip stray
semicolons, collect statements, and on a caught error print one
diagnostic (counted here), synchronize and resume.  Returns the
recovered statements and the number of diagnostics printed. -/
def parseTopLoop : Nat → List Stmt → Nat → List Token → List Stmt × Nat
  | 0, acc, errs, _ => (acc, errs)
  | f + 1, acc, errs, ts =>
    if curType ts = TokenType.END_OF_FILE then (acc, errs)
    else if curType ts = TokenType.SEMICOLON then parseTopLoop f acc errs (adv ts)
    else
      match parseStatement f ts with
      | Except.ok (s, ts1) => parseTopLoop f (acc ++ [s]) errs ts1
      | Except.error e => parseTopLoop f acc (errs + 1) (synchronize e.toks)

/-- From `parser.cpp`: `Parser::parse` on a token list, with fuel ample
for any input of that size. -/
def parseProgram (ts : List Token) : List Stmt × Nat :=
  parseTopLoop ((ts.length + 2) * 32) [] 0 ts

/-! ## Type checker (`typechecker.cpp`)

The `TypeChecker` object's mutable members become the state record `TC`.
A thrown `TypeError` becomes an `Except.error` (for expression checks,
which never mutate the state) or a `TC × Option String` result (for
statement checks, whose mutations up to the throw point persist in the
C++ object and must survive the unwind). -/

/-- The type checker's mutable members. -/
structure TC where
  symtab : SymbolTable
  currentFunctionName : String := ""
  currentFunctionReturnType : TokenType := TokenType.VOID
  inFunctionBody : Bool := false

/-- From `typechecker.cpp`: the `TypeChecker` constructor. -/
def TC.fresh : TC := { symtab := SymbolTable.fresh }

/-- From `typechecker.cpp`: `TypeChecker::tokenTypeToString`. -/
def tokenTypeToString (t : TokenType) : String :=
  match t with
  | TokenType.INT => "int"
  | TokenType.FLOAT => "float"
  | TokenType.CHAR => "char"
  | TokenType.VOID => "void"
  | TokenType.BOOL => "bool"
  | TokenType.STRING_LITERAL => "string"
  | TokenType.INTEGER_LITERAL => "int"
  | TokenType.FLOAT_LITERAL => "float"
  | TokenType.CHAR_LITERAL => "char"
  | TokenType.BOOL_LITERAL => "bool"
  | TokenType.POINTER => "pointer"
  | _ => "unknown"

mutual
/-- From `typechecker.cpp`: `TypeChecker::checkExpression` with its
dispatched per-node helpers (`checkLiteral`, `checkIdentifier`,
`checkUnary`, `checkBinary`, `checkLogical`, `checkAssign`, `checkCall`)
inlined per constructor.  Expression checking reads but never mutates
the symbol table, so the state is passed read-only. -/
def checkExpression (st : TC) (e : Expr) : Except String TokenType :=
  match e with
  | Expr.literal _ litType => Except.ok litType
  | Expr.ident name =>
    match st.symtab.resolve name with
    | none => Except.error ("Undefined variable '" ++ name ++ "'")
    | some sym =>
      if sym.kind = SymbolKind.FUNCTION then
        Except.error ("'" ++ name ++ "' is a function and cannot be used as a variable")
      else Except.ok (if sym.isPointer then TokenType.POINTER else sym.type)
  | Expr.unary op operand =>
    match checkExpression st operand with
    | Except.error e => Except.error e
    | Except.ok rightType =>
      match op with
      | TokenType.MINUS =>
        if isNumericType rightType then Except.ok rightType
        else Except.error "Unary '+' and '-' operators require numeric operands"
      | TokenType.PLUS =>
        if isNumericType rightType then Except.ok rightType
        else Except.error "Unary '+' and '-' operators require numeric operands"
      | TokenType.NOT => Except.ok TokenType.BOOL
      | TokenType.INCREMENT =>
        if isNumericType rightType then Except.ok rightType
        else Except.error "Increment and decrement operators require numeric operands"
      | TokenType.DECREMENT =>
        if isNumericType rightType then Except.ok rightType
        else Except.error "Increment and decrement operators require numeric operands"
      | TokenType.MULTIPLY =>
        if rightType ≠ TokenType.POINTER then
          Except.error "Cannot dereference non-pointer type"
        else Except.ok TokenType.INT
      | TokenType.AMPERSAND => Except.ok TokenType.POINTER
      | _ => Except.error "Unsupported unary operator"
  | Expr.binary l op r =>
    match checkExpression st l with
    | Except.error e => Except.error e
    | Except.ok leftType =>
      match checkExpression st r with
      | Except.error e => Except.error e
      | Except.ok rightType =>
        if op = TokenType.LEFT_SHIFT ∨ op = TokenType.RIGHT_SHIFT then
          Except.ok leftType
        else if op = TokenType.PLUS ∨ op = TokenType.MINUS ∨
            op = TokenType.MULTIPLY ∨ op = TokenType.SLASH then
          if op = TokenType.PLUS ∧
              (leftType = TokenType.STRING_LITERAL ∨
               rightType = TokenType.STRING_LITERAL) then
            Except.ok TokenType.STRING_LITERAL
          else if (op = TokenType.PLUS ∨ op = TokenType.MINUS) ∧
              leftType = TokenType.POINTER ∧ isNumericType rightType then
            Except.ok TokenType.POINTER
          else if op = TokenType.PLUS ∧ rightType = TokenType.POINTER ∧
              isNumericType leftType then
            Except.ok TokenType.POINTER
          else if ¬(isNumericType leftType ∧ isNumericType rightType) then
            Except.error ("Binary operator '" ++ tokenTypeToString op ++
              "' requires numeric operands, got " ++ tokenTypeToString leftType ++
              " and " ++ tokenTypeToString rightType)
          else if leftType = TokenType.FLOAT_LITERAL ∨
              rightType = TokenType.FLOAT_LITERAL then
            Except.ok TokenType.FLOAT_LITERAL
          else Except.ok TokenType.INTEGER_LITERAL
        else if op = TokenType.EQUAL_EQUAL ∨ op = TokenType.NOT_EQUAL ∨
            op = TokenType.LESS ∨ op = TokenType.LESS_EQUAL ∨
            op = TokenType.GREATER ∨ op = TokenType.GREATER_EQUAL then
          if ¬ isCompatibleType leftType rightType then
            Except.error ("Cannot compare incompatible types: " ++
              tokenTypeToString leftType ++ " and " ++ tokenTypeToString rightType)
          else Except.ok TokenType.BOOL
        else Except.error "Unsupported binary operator"
  | Expr.logical l _ r =>
    match checkExpression st l with
    | Except.error e => Except.error e
    | Except.ok leftType =>
      match checkExpression st r with
      | Except.error e => Except.error e
      | Except.ok rightType =>
        if ¬ isBooleanType leftType then
          Except.error ("Left operand of logical operator must be boolean, got " ++
            tokenTypeToString leftType)
        else if ¬ isBooleanType rightType then
          Except.error ("Right operand of logical operator must be boolean, got " ++
            tokenTypeToString rightType)
        else Except.ok TokenType.BOOL
  | Expr.assign name _ value =>
    match st.symtab.resolve name with
    | none => Except.error ("Cannot assign to undeclared variable '" ++ name ++ "'")
    | some sym =>
      if sym.kind = SymbolKind.FUNCTION then
        Except.error ("Cannot assign to function '" ++ name ++ "'")
      else
        let leftType := if sym.isPointer then TokenType.POINTER else sym.type
        match checkExpression st value with
        | Except.error e => Except.error e
        | Except.ok rightType =>
          if leftType ≠ rightType ∧
              ¬(leftType = TokenType.FLOAT ∧
                (rightType = TokenType.INTEGER_LITERAL ∨ rightType = TokenType.INT)) then
            Except.error ("Cannot assign " ++ tokenTypeToString rightType ++
              " to variable of type " ++ tokenTypeToString leftType)
          else Except.ok leftType
  | Expr.call callee args =>
    match st.symtab.resolve callee with
    | none => Except.error ("Undefined function '" ++ callee ++ "'")
    | some sym =>
      if sym.kind ≠ SymbolKind.FUNCTION then
        Except.error ("'" ++ callee ++ "' is not a function")
      else if sym.parameters.length ≠ args.length then
        Except.error ("Function '" ++ callee ++ "' expects " ++
          toString sym.parameters.length ++ " arguments, but got " ++
          toString args.length)
      else
        match checkCallArguments st callee args sym.parameters 0 with
        | Except.error e => Except.error e
        | Except.ok _ => Except.ok sym.returnType

/-- The argument loop of `TypeChecker::checkCall`: each argument must
equal the parameter type, up to the FLOAT-accepts-INT widening. -/
def checkCallArguments (st : TC) (callee : String) (args : List Expr)
    (params : List (String × TokenType)) (i : Nat) : Except String Unit :=
  match args, params with
  | [], _ => Except.ok ()
  | _, [] => Except.ok ()
  | arg :: args', p :: params' =>
    match checkExpression st arg with
    | Except.error e => Except.error e
    | Except.ok argType =>
      let paramType := p.snd
      if paramType ≠ argType ∧
          ¬(paramType = TokenType.FLOAT ∧
            (argType = TokenType.INTEGER_LITERAL ∨ argType = TokenType.INT)) then
        Except.error ("Argument " ++ toString (i + 1) ++ " to function '" ++ callee ++
          "' has incompatible type: expected " ++ tokenTypeToString paramType ++
          ", got " ++ tokenTypeToString argType)
      else checkCallArguments st callee args' params' (i + 1)
end

mutual
/-- From `typechecker.cpp`: `TypeChecker::checkStatement` with the
dispatched per-statement helpers inlined per constructor.  The result
pairs the state after the call with `some message` when the C++ code
would have thrown a `TypeError` out of the function (the mutations made
before the throw — in particular scopes entered but not yet exited —
persist in the returned state, exactly as they do in the C++ object).
The explicit fuel is an artifact of the embedding (the C++ recursion is
structural on the statement tree); every use below supplies ample fuel. -/
def checkStatement : Nat → Stmt → TC → TC × Option String
  | 0, _, st => (st, some "checker fuel exhausted")
  | fuel + 1, s, st =>
  match s with
  | Stmt.exprStmt e =>
    match checkExpression st e with
    | Except.error msg => (st, some msg)
    | Except.ok _ => (st, none)
  | Stmt.block stmts =>
    let st1 := { st with symtab := st.symtab.enterScope }
    match checkStatementList fuel stmts st1 with
    | (st2, some msg) => (st2, some msg)
    | (st2, none) => ({ st2 with symtab := st2.symtab.exitScope }, none)
  | Stmt.varDecl ty isPtr name ini =>
    if (st.symtab.resolve name).isSome then
      (st, some ("Variable '" ++ name ++ "' already defined"))
    else
      let checkIni : Option String :=
        match ini with
        | none => none
        | some e =>
          match checkExpression st e with
          | Except.error msg => some msg
          | Except.ok initType =>
            if ¬ isCompatibleType ty initType then
              some ("Cannot initialize variable of type " ++
                tokenTypeToString (if isPtr then TokenType.POINTER else ty) ++
                " with value of type " ++ tokenTypeToString initType)
            else none
      match checkIni with
      | some msg => (st, some msg)
      | none =>
        let sym : Symbol :=
          { name := name, type := ty, isPointer := isPtr, kind := SymbolKind.VARIABLE }
        ({ st with symtab := (st.symtab.define sym).fst }, none)
  | Stmt.funcDecl name rt params body =>
    match st.symtab.resolve name with
    | none => (st, some "Internal error: function not found in symbol table")
    | some sym =>
      if sym.kind ≠ SymbolKind.FUNCTION then
        (st, some "Internal error: function not found in symbol table")
      else
        let prevName := st.currentFunctionName
        let prevRet := st.currentFunctionReturnType
        let prevIn := st.inFunctionBody
        let st1 : TC :=
          { st with
            currentFunctionName := name,
            currentFunctionReturnType := rt,
            inFunctionBody := true }
        let st2 := { st1 with symtab := st1.symtab.enterScope }
        let st3 :=
          params.foldl
            (fun acc p =>
              { acc with
                symtab := (acc.symtab.define
                  { name := p.fst, type := p.snd,
                    isPointer := p.snd = TokenType.POINTER,
                    kind := SymbolKind.PARAMETER }).fst })
            st2
        match checkStatement fuel body st3 with
        | (st4, some msg) => (st4, some msg)
        | (st4, none) =>
          ({ st4 with
             symtab := st4.symtab.exitScope,
             currentFunctionName := prevName,
             currentFunctionReturnType := prevRet,
             inFunctionBody := prevIn }, none)
  | Stmt.ifStmt cond thenB elseB =>
    match checkExpression st cond with
    | Except.error msg => (st, some msg)
    | Except.ok condType =>
      if ¬ isBooleanType condType then
        (st, some ("If condition must be boolean, got " ++ tokenTypeToString condType))
      else
        match checkStatement fuel thenB st with
        | (st1, some msg) => (st1, some msg)
        | (st1, none) =>
          match elseB with
          | none => (st1, none)
          | some e => checkStatement fuel e st1
  | Stmt.whileStmt cond body =>
    match checkExpression st cond with
    | Except.error msg => (st, some msg)
    | Except.ok condType =>
      if ¬ isBooleanType condType then
        (st, some ("While condition must be boolean, got " ++ tokenTypeToString condType))
      else checkStatement fuel body st
  | Stmt.forStmt ini cond inc body =>
    let st1 := { st with symtab := st.symtab.enterScope }
    let afterIni : TC × Option String :=
      match ini with
      | none => (st1, none)
      | some i => checkStatement fuel i st1
    match afterIni with
    | (st2, some msg) => (st2, some msg)
    | (st2, none) =>
      let condRes : Option String :=
        match cond with
        | none => none
        | some c =>
          match checkExpression st2 c with
          | Except.error msg => some msg
          | Except.ok condType =>
            if ¬ isBooleanType condType then
              some ("For loop condition must be boolean, got " ++
                tokenTypeToString condType)
            else none
      match condRes with
      | some msg => (st2, some msg)
      | none =>
        let incRes : Option String :=
          match inc with
          | none => none
          | some i =>
            match checkExpression st2 i with
            | Except.error msg => some msg
            | Except.ok _ => none
        match incRes with
        | some msg => (st2, some msg)
        | none =>
          match checkStatement fuel body st2 with
          | (st3, some msg) => (st3, some msg)
          | (st3, none) => ({ st3 with symtab := st3.symtab.exitScope }, none)
  | Stmt.ret value =>
    if ¬ st.inFunctionBody then
      (st, some "Return statement outside of function body")
    else
      match value with
      | some v =>
        match checkExpression st v with
        | Except.error msg => (st, some msg)
        | Except.ok returnType =>
          if st.currentFunctionReturnType = TokenType.VOID then
            (st, some "Cannot return a value from void function")
          else if ¬ isCompatibleType st.currentFunctionReturnType returnType then
            (st, some ("Function '" ++ st.currentFunctionName ++ "' returns " ++
              tokenTypeToString st.currentFunctionReturnType ++ " but got " ++
              tokenTypeToString returnType))
          else (st, none)
      | none =>
        if st.currentFunctionReturnType ≠ TokenType.VOID then
          (st, some ("Function '" ++ st.currentFunctionName ++
            "' must return a value of type " ++
            tokenTypeToString st.currentFunctionReturnType))
        else (st, none)

/-- The statement loop of `TypeChecker::checkBlock`: check statements in
order; the first thrown error aborts the loop and propagates. -/
def checkStatementList : Nat → List Stmt → TC → TC × Option String
  | 0, _, st => (st, some "checker fuel exhausted")
  | _ + 1, [], st => (st, none)
  | fuel + 1, s :: rest, st =>
    match checkStatement fuel s st with
    | (st1, some msg) => (st1, some msg)
    | (st1, none) => checkStatementList fuel rest st1
end

mutual
/-- Node count of a statement tree, used to compute ample checker fuel. -/
def stmtSize : Stmt → Nat
  | Stmt.exprStmt _ => 1
  | Stmt.block l => 1 + stmtListSize l
  | Stmt.ifStmt _ t e =>
    1 + stmtSize t + (match e with
                      | some s => stmtSize s
                      | none => 0)
  | Stmt.whileStmt _ b => 1 + stmtSize b
  | Stmt.forStmt i _ _ b =>
    1 + (match i with
         | some s => stmtSize s
         | none => 0) + stmtSize b
  | Stmt.ret _ => 1
  | Stmt.varDecl _ _ _ _ => 1
  | Stmt.funcDecl _ _ _ b => 1 + stmtSize b

/-- Total node count of a statement list. -/
def stmtListSize : List Stmt → Nat
  | [] => 0
  | s :: r => 1 + stmtSize s + stmtListSize r
end

/-- Pass 1 of `TypeChecker::check`: hoist every top-level
`FunctionDeclaration` into the (global) scope; duplicates produce errors
but do not abort.  (The C++ function-symbol constructor leaves the
`type` member uninitialized; the model leaves it at the default.) -/
def hoistFunctions (stmts : List Stmt) (st : TC) (errs : List String) :
    TC × List String :=
  match stmts with
  | [] => (st, errs)
  | Stmt.funcDecl name rt params _ :: rest =>
    let sym : Symbol :=
      { name := name, kind := SymbolKind.FUNCTION, isPointer := false,
        returnType := rt, parameters := params }
    let (tab, ok) := st.symtab.define sym
    let errs' := if ok then errs else errs ++ ["Function '" ++ name ++ "' already defined"]
    hoistFunctions rest { st with symtab := tab } errs'
  | _ :: rest => hoistFunctions rest st errs

/-- Pass 2 of `TypeChecker::check`: the per-top-level-statement walk;
each thrown `TypeError` is caught here and collected. -/
def checkTopStatements (stmts : List Stmt) (st : TC) (errs : List String) :
    TC × List String :=
  match stmts with
  | [] => (st, errs)
  | s :: rest =>
    match checkStatement (stmtSize s + 1) s st with
    | (st1, some msg) => checkTopStatements rest st1 (errs ++ [msg])
    | (st1, none) => checkTopStatements rest st1 errs

/-- From `typechecker.cpp`: `TypeChecker::check` on a fresh checker.
Returns the final checker state and the collected error list; the C++
code throws a single aggregate `TypeError` exactly when the list is
non-empty. -/
def typecheck (stmts : List Stmt) : TC × List String :=
  let (st1, errs1) := hoistFunctions stmts TC.fresh []
  checkTopStatements stmts st1 errs1

/-! ## Driver (`main.cpp`) -/

/-- From `main.cpp`: `main` for an already-read source text (the eager
`tokenize` here stands for the lexical phase: when it fails, the thrown
lexical error reaches the catch-all in `main` and the process exits 1).
Parse diagnostics are printed inside `Parser::parse` but tracked in no
flag, so the exit code is 1 exactly when type checking collected errors
(or lexing failed), and 0 otherwise — even when parse diagnostics were
emitted. -/
def mainExitCode (src : String) : Nat :=
  match tokenize src with
  | Except.error _ => 1
  | Except.ok toks =>
    let (stmts, _parseDiagnostics) := parseProgram toks
    let (_, errors) := typecheck stmts
    if errors.isEmpty then 0 else 1

/-- The parse-diagnostic count the driver run prints to standard error
from `Parser::parse` (0 when the input does not lex). -/
def parseDiagnosticCount (src : String) : Nat :=
  match tokenize src with
  | Except.error _ => 0
  | Except.ok toks => (parseProgram toks).snd

/-- The IR instruction list `main` computes for a source text that
passes both earlier phases: generation followed by the peephole pass. -/
def compiledIR (src : String) : Option (List Instruction) :=
  match tokenize src with
  | Except.error _ => none
  | Except.ok toks =>
    let (stmts, _) := parseProgram toks
    let (_, errors) := typecheck stmts
    if errors.isEmpty then some (optimize (generateProgram stmts).instructions)
    else none

/-- The raw (pre-peephole) IR for a source text passing both phases. -/
def emittedIR (src : String) : Option (List Instruction) :=
  match tokenize src with
  | Except.error _ => none
  | Except.ok toks =>
    let (stmts, _) := parseProgram toks
    let (_, errors) := typecheck stmts
    if errors.isEmpty then some (generateProgram stmts).instructions
    else none

/-! ## Definitions supporting individual claims -/

/-- Modelled from the claim's description of the peephole pass: one
left-to-right scan; at a `LOAD` whose immediate successor is a `STORE`,
delete both and continue at the instruction after the deleted pair. -/
def peepholeScan : List Instruction → List Instruction
  | [] => []
  | [i] => [i]
  | i :: j :: rest =>
    if i.opcode = OpCode.LOAD ∧ j.opcode = OpCode.STORE then peepholeScan rest
    else i :: peepholeScan (j :: rest)

/-- Whether a character list contains the two-character closer `*/`. -/
def hasBlockCloser : List Char → Bool
  | c1 :: c2 :: rest => (c1 = '*' && c2 = '/') || hasBlockCloser (c2 :: rest)
  | [_] => false
  | [] => false

/-! ## Claim theorems (first group) -/

theorem optimizeGo_eq_scan (done rest : List Instruction) :
    optimizeGo done rest = done ++ peepholeScan rest := by
  induction rest using peepholeScan.induct generalizing done <;>
    simp [optimizeGo, peepholeScan, *]

def c4example : List Instruction :=
  [⟨OpCode.LOAD, "a", "", "t1"⟩, ⟨OpCode.LOAD, "b", "", "t2"⟩,
   ⟨OpCode.STORE, "t2", "", "c"⟩, ⟨OpCode.STORE, "t1", "", "d"⟩]

/-- C4: the peephole pass `optimize` equals a single left-to-right scan
that deletes each `LOAD` immediately followed by a `STORE` and continues
at the instruction after the deleted pair; it runs exactly once and is
not iterated to a fixpoint — on `[LOAD a, LOAD b, STORE c, STORE d]` the
deletion of the middle pair creates a new `LOAD`/`STORE` adjacency that
remains in the output. -/
theorem claim4_theorem :
    (∀ l, optimize l = peepholeScan l) ∧
    optimize c4example = [⟨OpCode.LOAD, "a", "", "t1"⟩, ⟨OpCode.STORE, "t1", "", "d"⟩] ∧
    optimize (optimize c4example) ≠ optimize c4example := by
  refine ⟨fun l => optimizeGo_eq_scan [] l, by decide, by decide⟩

/-- C1 counterexample: for `int x = 5;` the emitter produces
`STORE 5 -> t1` followed by `STORE t2 -> x` — the temporary stored into
`x` is a second, freshly minted one, not `t1` — and the peephole pass
(which only deletes `LOAD`/`STORE` pairs) leaves both instructions, so
the claimed `STORE 5 -> t1; STORE t1 -> x` and post-peephole
`STORE 5 -> x` are both wrong. -/
theorem claim1_counterexample :
    emittedIR "int x = 5;" =
      some [⟨OpCode.STORE, "5", "", "t1"⟩, ⟨OpCode.STORE, "t2", "", "x"⟩] ∧
    compiledIR "int x = 5;" =
      some [⟨OpCode.STORE, "5", "", "t1"⟩, ⟨OpCode.STORE, "t2", "", "x"⟩] ∧
    emittedIR "int x = 5;" ≠
      some [⟨OpCode.STORE, "5", "", "t1"⟩, ⟨OpCode.STORE, "t1", "", "x"⟩] ∧
    compiledIR "int x = 5;" ≠ some [⟨OpCode.STORE, "5", "", "x"⟩] := by
  refine ⟨by rfl, by rfl, by decide, by decide⟩

/-- C1 amended: for `int x = 5;` the emitter produces `STORE 5 -> t1`
then `STORE t2 -> x` (the declaration mints a fresh temporary after
lowering the initializer), and the peephole pass leaves this list
unchanged since it removes only `LOAD`-then-`STORE` pairs. -/
theorem claim1_amended :
    emittedIR "int x = 5;" =
      some [⟨OpCode.STORE, "5", "", "t1"⟩, ⟨OpCode.STORE, "t2", "", "x"⟩] ∧
    compiledIR "int x = 5;" =
      some [⟨OpCode.STORE, "5", "", "t1"⟩, ⟨OpCode.STORE, "t2", "", "x"⟩] ∧
    dumpInstr ⟨OpCode.STORE, "5", "", "t1"⟩ = "  STORE 5 -> t1" ∧
    dumpInstr ⟨OpCode.STORE, "t2", "", "x"⟩ = "  STORE t2 -> x" := by
  refine ⟨by rfl, by rfl, by rfl, by rfl⟩

/-- C10: lowering a `VariableDeclaration` with no initializer appends
exactly one instruction — a `STORE` with empty first operand and the
variable name as result — and mints no temporary (the counters are
unchanged); the dumped form is `  STORE  -> x`. -/
theorem claim10_theorem :
    (∀ (ty : TokenType) (ptr : Bool) (name : String) (g : CG),
      generateStatement (Stmt.varDecl ty ptr name none) g =
        { g with instructions := g.instructions ++ [⟨OpCode.STORE, "", "", name⟩] }) ∧
    dumpInstr ⟨OpCode.STORE, "", "", "x"⟩ = "  STORE  -> x" := by
  exact ⟨fun ty ptr name g => rfl, rfl⟩

/-- C7 counterexample: the compatibility relation is not symmetric —
`compatible(POINTER, INTEGER_LITERAL)` holds while
`compatible(INTEGER_LITERAL, POINTER)` does not. -/
theorem claim7_counterexample :
    isCompatibleType TokenType.POINTER TokenType.INTEGER_LITERAL = true ∧
    isCompatibleType TokenType.INTEGER_LITERAL TokenType.POINTER = false := by
  decide

def pointerEnv : TC :=
  { symtab := [[("p", { name := "p", type := TokenType.INT, isPointer := true,
                        kind := SymbolKind.VARIABLE })]] }

/-- C7 amended: `isCompatibleType` is symmetric except exactly at the
pointer rule, whose test `isPointerType(left) && right == INTEGER_LITERAL`
fires only with the pointer on the left; consequently `p == 0` (pointer
on the left) type-checks while the mirrored `0 == p` is rejected. -/
theorem claim7_amended :
    (∀ a b, (isCompatibleType a b = true ∧ isCompatibleType b a = false) ↔
      (a = TokenType.POINTER ∧ b = TokenType.INTEGER_LITERAL)) ∧
    checkExpression pointerEnv
      (Expr.binary (Expr.ident "p") TokenType.EQUAL_EQUAL
        (Expr.literal "0" TokenType.INTEGER_LITERAL)) = Except.ok TokenType.BOOL ∧
    checkExpression pointerEnv
      (Expr.binary (Expr.literal "0" TokenType.INTEGER_LITERAL) TokenType.EQUAL_EQUAL
        (Expr.ident "p")) =
      Except.error "Cannot compare incompatible types: int and pointer" := by
  refine ⟨by decide, by rfl, by rfl⟩

/-- C7 witness: the amended characterisation applied to the pair
`(POINTER, INTEGER_LITERAL)`. -/
theorem claim7_witness :
    (isCompatibleType TokenType.POINTER TokenType.INTEGER_LITERAL = true ∧
      isCompatibleType TokenType.INTEGER_LITERAL TokenType.POINTER = false) ↔
    (TokenType.POINTER = TokenType.POINTER ∧
      TokenType.INTEGER_LITERAL = TokenType.INTEGER_LITERAL) :=
  claim7_amended.1 TokenType.POINTER TokenType.INTEGER_LITERAL

/-- C9 counterexample: on the source `/*x`, whose `/*` is never closed,
the lexer does produce a token from a byte after the `/*` — the next
token is `IDENTIFIER "x"`, not `END_OF_FILE`. -/
theorem claim9_counterexample :
    getNextToken 4 ⟨"/*x".data, 1⟩ =
      Except.ok (⟨TokenType.IDENTIFIER, "x", 1⟩, ⟨[], 1⟩) ∧
    tokenize "/*x" = Except.ok
      [⟨TokenType.IDENTIFIER, "x", 1⟩, ⟨TokenType.END_OF_FILE, "", 1⟩] ∧
    TokenType.IDENTIFIER ≠ TokenType.END_OF_FILE := by
  refine ⟨by rfl, by rfl, by decide⟩

/-- C9 amended: an unterminated block comment consumes everything
except the final character of the input (the scan loop requires two
remaining characters), so the last byte is re-lexed as an ordinary
token: `/*x` lexes to `IDENTIFIER "x"`, and only when nothing (or
whitespace) remains after the comment opener — as in `/*` itself — is
the next token `END_OF_FILE`. -/
theorem claim9_amended :
    (∀ (cs : List Char) (ln : Nat), hasBlockCloser cs = false →
      (skipBlockCommentGo cs ln).fst = cs.drop (cs.length - 1)) ∧
    tokenize "/*x" = Except.ok
      [⟨TokenType.IDENTIFIER, "x", 1⟩, ⟨TokenType.END_OF_FILE, "", 1⟩] ∧
    tokenize "/*" = Except.ok [⟨TokenType.END_OF_FILE, "", 1⟩] := by
  refine ⟨?_, by rfl, by rfl⟩
  intro cs ln h
  induction cs, ln using skipBlockCommentGo.induct with
  | case1 ln => simp [skipBlockCommentGo]
  | case2 c ln => simp [skipBlockCommentGo]
  | case3 c c2 cs ln hcc =>
    simp [hasBlockCloser, hcc] at h
  | case4 c c2 cs ln hcc ih =>
    simp only [hasBlockCloser, Bool.or_eq_false_iff] at h
    have h2 := h.2
    simp only [skipBlockCommentGo, if_neg hcc]
    rw [ih h2]
    simp

-- C2
/-- C9 witness: the amended claim's comment-scan part applied to the
closer-free body `['a']`. -/
theorem claim9_witness :
    hasBlockCloser ['a'] = false ∧
    (skipBlockCommentGo ['a'] 1).fst = (['a'] : List Char).drop (['a'].length - 1) :=
  ⟨by decide, claim9_amended.1 ['a'] 1 (by decide)⟩

/-- C2 counterexample: on `int x = ;` the parser emits one syntactic
diagnostic, yet the driver exits 0 — the later phases are not skipped
and the exit code ignores parse errors. -/
theorem claim2_counterexample :
    parseDiagnosticCount "int x = ;" = 1 ∧ mainExitCode "int x = ;" = 0 :=
  ⟨rfl, rfl⟩

/-- C2 amended: for every input that lexes completely, the driver's
exit code is decided solely by the type checker run on the recovered
statement list — 0 when it collects no errors, 1 otherwise — regardless
of how many syntactic diagnostics the parser printed; type checking and
emission are not skipped after parse errors. -/
theorem claim2_amended (src : String) (toks : List Token) (stmts : List Stmt) (n : Nat)
    (htok : tokenize src = Except.ok toks)
    (hparse : parseProgram toks = (stmts, n)) :
    mainExitCode src = (if (typecheck stmts).snd.isEmpty then 0 else 1) ∧
    parseDiagnosticCount src = n := by
  rcases htc : typecheck stmts with ⟨st, errs⟩
  constructor
  · simp [mainExitCode, htok, hparse, htc]
  · simp [parseDiagnosticCount, htok, hparse]

def c2tokens : List Token :=
  [⟨TokenType.INT, "int", 1⟩, ⟨TokenType.IDENTIFIER, "x", 1⟩,
   ⟨TokenType.EQUAL, "=", 1⟩, ⟨TokenType.SEMICOLON, ";", 1⟩,
   ⟨TokenType.END_OF_FILE, "", 1⟩]

/-- C2 witness: the amended claim applied to the concrete input
`int x = ;`, which produces one parse diagnostic and exit code 0. -/
theorem claim2_witness :
    tokenize "int x = ;" = Except.ok c2tokens ∧
    parseProgram c2tokens = ([], 1) ∧
    mainExitCode "int x = ;" = (if (typecheck []).snd.isEmpty then 0 else 1) ∧
    parseDiagnosticCount "int x = ;" = 1 :=
  ⟨rfl, rfl, (claim2_amended "int x = ;" c2tokens [] 1 rfl rfl).1,
   (claim2_amended "int x = ;" c2tokens [] 1 rfl rfl).2⟩

-- C3 counterexample
def c3stmt : Stmt := Stmt.block [Stmt.exprStmt (Expr.ident "z")]

/-- C3 counterexample: checking the top-level statement `{ z; }` (a
block whose body references the undefined `z`) raises a semantic error
out of `checkBlock` before `exitScope` runs, so after the per-statement
error aggregation the scope depth is 2, not the 1 it was before. -/
theorem claim3_counterexample :
    TC.fresh.symtab.length = 1 ∧
    (checkStatement 9 c3stmt TC.fresh).snd = some "Undefined variable 'z'" ∧
    (checkStatement 9 c3stmt TC.fresh).fst.symtab.length = 2 ∧
    (typecheck [c3stmt]).fst.symtab.length = 2 ∧
    (typecheck [c3stmt]).snd = ["Undefined variable 'z'"] :=
  ⟨rfl, rfl, rfl, rfl, rfl⟩

-- C6
/-- C6 counterexample: for the stream chain `s << a << b` with
identifier operands the parser yields the RIGHT-nested tree
`Binary(s, <<, Binary(a, <<, b))` — the identifier operand `a` re-enters
the stream loop inside its own primary parse and grabs the rest of the
chain — not the left-nested tree the claim states. -/
theorem claim6_counterexample :
    parseExpression 30
      [⟨TokenType.IDENTIFIER, "s", 1⟩, ⟨TokenType.LEFT_SHIFT, "<<", 1⟩,
       ⟨TokenType.IDENTIFIER, "a", 1⟩, ⟨TokenType.LEFT_SHIFT, "<<", 1⟩,
       ⟨TokenType.IDENTIFIER, "b", 1⟩, ⟨TokenType.SEMICOLON, ";", 1⟩] =
      Except.ok (Expr.binary (Expr.ident "s") TokenType.LEFT_SHIFT
        (Expr.binary (Expr.ident "a") TokenType.LEFT_SHIFT (Expr.ident "b")),
        [⟨TokenType.SEMICOLON, ";", 1⟩]) ∧
    Expr.binary (Expr.ident "s") TokenType.LEFT_SHIFT
        (Expr.binary (Expr.ident "a") TokenType.LEFT_SHIFT (Expr.ident "b")) ≠
      Expr.binary (Expr.binary (Expr.ident "s") TokenType.LEFT_SHIFT (Expr.ident "a"))
        TokenType.LEFT_SHIFT (Expr.ident "b") := by
  refine ⟨by rfl, by simp⟩

/-- C6 amended: a stream chain nests LEFT only when the right operands
do not themselves trigger the stream loop (literals, or the specially
consumed `endl`); an identifier right operand produces right nesting:
`s << a << b` parses as `Binary(s, <<, Binary(a, <<, b))` while
`s << 1 << 2` and `s << endl << endl` parse left-nested. -/
theorem claim6_amended :
    parseExpression 30
      [⟨TokenType.IDENTIFIER, "s", 1⟩, ⟨TokenType.LEFT_SHIFT, "<<", 1⟩,
       ⟨TokenType.IDENTIFIER, "a", 1⟩, ⟨TokenType.LEFT_SHIFT, "<<", 1⟩,
       ⟨TokenType.IDENTIFIER, "b", 1⟩, ⟨TokenType.SEMICOLON, ";", 1⟩] =
      Except.ok (Expr.binary (Expr.ident "s") TokenType.LEFT_SHIFT
        (Expr.binary (Expr.ident "a") TokenType.LEFT_SHIFT (Expr.ident "b")),
        [⟨TokenType.SEMICOLON, ";", 1⟩]) ∧
    parseExpression 30
      [⟨TokenType.IDENTIFIER, "s", 1⟩, ⟨TokenType.LEFT_SHIFT, "<<", 1⟩,
       ⟨TokenType.INTEGER_LITERAL, "1", 1⟩, ⟨TokenType.LEFT_SHIFT, "<<", 1⟩,
       ⟨TokenType.INTEGER_LITERAL, "2", 1⟩, ⟨TokenType.SEMICOLON, ";", 1⟩] =
      Except.ok (Expr.binary
        (Expr.binary (Expr.ident "s") TokenType.LEFT_SHIFT
          (Expr.literal "1" TokenType.INTEGER_LITERAL))
        TokenType.LEFT_SHIFT (Expr.literal "2" TokenType.INTEGER_LITERAL),
        [⟨TokenType.SEMICOLON, ";", 1⟩]) ∧
    parseExpression 30
      [⟨TokenType.IDENTIFIER, "s", 1⟩, ⟨TokenType.LEFT_SHIFT, "<<", 1⟩,
       ⟨TokenType.ENDL, "endl", 1⟩, ⟨TokenType.LEFT_SHIFT, "<<", 1⟩,
       ⟨TokenType.ENDL, "endl", 1⟩, ⟨TokenType.SEMICOLON, ";", 1⟩] =
      Except.ok (Expr.binary
        (Expr.binary (Expr.ident "s") TokenType.LEFT_SHIFT (Expr.ident "endl"))
        TokenType.LEFT_SHIFT (Expr.ident "endl"),
        [⟨TokenType.SEMICOLON, ";", 1⟩]) :=
  ⟨rfl, rfl, rfl⟩

-- C8
theorem runScopeOps_balanced_invariant : ∀ (ops : List ScopeOp) (st : SymbolTable),
    1 ≤ st.length →
    (∀ k, countExit (ops.take k) + 1 ≤ countEnter (ops.take k) + st.length) →
    (runScopeOps ops st).length + countExit ops = st.length + countEnter ops := by
  intro ops
  induction ops with
  | nil => intro st _ _; simp [runScopeOps, countEnter, countExit]
  | cons op rest ih =>
    intro st hst hpre
    cases op with
    | enterOp =>
      have hrest : ∀ k, countExit (rest.take k) + 1 ≤
          countEnter (rest.take k) + (st.enterScope).length := by
        intro k
        have := hpre (k + 1)
        simp only [List.take_succ_cons, countEnter, countExit, List.count_cons,
          SymbolTable.enterScope, List.length_cons] at this ⊢
        simp at this ⊢
        omega
      have hlen : 1 ≤ (st.enterScope).length := by
        simp [SymbolTable.enterScope]
      have := ih st.enterScope hlen hrest
      simp only [runScopeOps, countEnter, countExit, List.count_cons,
        SymbolTable.enterScope, List.length_cons] at this ⊢
      simp at this ⊢
      omega
    | exitOp =>
      have hlen2 : 2 ≤ st.length := by
        have := hpre 1
        simp [countEnter, countExit, List.count_cons] at this
        omega
      have hexitlen : (st.exitScope).length + 1 = st.length := by
        simp only [SymbolTable.exitScope]
        rw [if_pos (by omega)]
        cases st with
        | nil => simp at hlen2
        | cons a t => simp
      have hrest : ∀ k, countExit (rest.take k) + 1 ≤
          countEnter (rest.take k) + (st.exitScope).length := by
        intro k
        have := hpre (k + 1)
        simp only [List.take_succ_cons, countEnter, countExit, List.count_cons] at this ⊢
        simp at this ⊢
        omega
      have := ih st.exitScope (by omega) hrest
      simp only [runScopeOps, countEnter, countExit, List.count_cons] at this ⊢
      simp at this ⊢
      omega

/-- C8: `exit_scope` never removes the global scope (it is the
identity whenever at most one scope is live), and running any balanced
sequence of `enter_scope`/`exit_scope` calls on a freshly constructed
table ends with exactly one live scope. -/
theorem claim8_theorem :
    (∀ st : SymbolTable, st.length ≤ 1 → st.exitScope = st) ∧
    (∀ ops, balancedOps ops → (runScopeOps ops SymbolTable.fresh).length = 1) := by
  constructor
  · intro st h
    simp only [SymbolTable.exitScope]
    rw [if_neg (by omega)]
  · intro ops hbal
    rcases hbal with ⟨htot, hpre⟩
    have hfl : SymbolTable.fresh.length = 1 := rfl
    have hinv := runScopeOps_balanced_invariant ops SymbolTable.fresh (by omega)
      (fun k => by have := hpre k; omega)
    omega

/-- C8 witness: the theorem applied to the fresh table and to the
concrete balanced sequence `[enter, exit]`. -/
theorem claim8_witness :
    (SymbolTable.fresh.length ≤ 1 ∧ SymbolTable.fresh.exitScope = SymbolTable.fresh) ∧
    (balancedOps [ScopeOp.enterOp, ScopeOp.exitOp] ∧
      (runScopeOps [ScopeOp.enterOp, ScopeOp.exitOp] SymbolTable.fresh).length = 1) :=
  ⟨⟨by decide, claim8_theorem.1 SymbolTable.fresh (by decide)⟩,
   ⟨by decide, claim8_theorem.2 [ScopeOp.enterOp, ScopeOp.exitOp] (by decide)⟩⟩

theorem define_length (st : SymbolTable) (sym : Symbol) :
    (st.define sym).fst.length = st.length := by
  cases st with
  | nil => rfl
  | cons inner rest =>
    simp only [SymbolTable.define, Scope.defineSym]
    split <;> simp

theorem params_fold_length (params : List (String × TokenType)) (t : TC) :
    (params.foldl
      (fun acc p =>
        { acc with
          symtab := (acc.symtab.define
            { name := p.fst, type := p.snd,
              isPointer := p.snd = TokenType.POINTER,
              kind := SymbolKind.PARAMETER }).fst })
      t).symtab.length = t.symtab.length := by
  induction params generalizing t with
  | nil => rfl
  | cons p rest ih =>
    rw [List.foldl_cons, ih]
    simp [define_length]

theorem check_preserves_depth (fuel : Nat) :
    (∀ (s : Stmt) (st st' : TC), 1 ≤ st.symtab.length →
      checkStatement fuel s st = (st', none) →
      st'.symtab.length = st.symtab.length) ∧
    (∀ (l : List Stmt) (st st' : TC), 1 ≤ st.symtab.length →
      checkStatementList fuel l st = (st', none) →
      st'.symtab.length = st.symtab.length) := by
  induction fuel with
  | zero =>
    constructor
    · intro s st st' _ h
      exact absurd (congrArg Prod.snd h) (by simp [checkStatement])
    · intro l st st' _ h
      exact absurd (congrArg Prod.snd h) (by simp [checkStatementList])
  | succ f ih =>
    obtain ⟨ihS, ihL⟩ := ih
    constructor
    · intro s st st' hlen h
      cases s with
      | exprStmt e =>
        simp only [checkStatement] at h
        split at h
        · exact absurd (congrArg Prod.snd h) (by simp)
        · injection h with h1 h2; subst h1; rfl
      | block stmts =>
        simp only [checkStatement] at h
        split at h
        next st2 msg heq => exact absurd (congrArg Prod.snd h) (by simp)
        next st2 heq =>
          injection h with h1 h2; subst h1
          have hd := ihL stmts _ st2 (by simp [SymbolTable.enterScope]) heq
          simp only [SymbolTable.enterScope, List.length_cons] at hd
          simp only [SymbolTable.exitScope]
          rw [if_pos (by omega)]
          have ht : st2.symtab.tail.length = st2.symtab.length - 1 := List.length_tail _
          simp only [ht]
          omega
      | varDecl ty isPtr name ini =>
        simp only [checkStatement] at h
        split at h
        · exact absurd (congrArg Prod.snd h) (by simp)
        · split at h
          · exact absurd (congrArg Prod.snd h) (by simp)
          · injection h with h1 h2; subst h1
            simp [define_length]
      | funcDecl name rt params body =>
        simp only [checkStatement] at h
        split at h
        · exact absurd (congrArg Prod.snd h) (by simp)
        next sym heq =>
          split at h
          · exact absurd (congrArg Prod.snd h) (by simp)
          · split at h
            next st4 msg heq2 => exact absurd (congrArg Prod.snd h) (by simp)
            next st4 heq2 =>
              injection h with h1 h2; subst h1
              have hfold := params_fold_length params
                { st with
                  currentFunctionName := name,
                  currentFunctionReturnType := rt,
                  inFunctionBody := true,
                  symtab := st.symtab.enterScope }
              have hd := ihS body _ st4
                (by rw [hfold]; simp [SymbolTable.enterScope])
                heq2
              rw [hfold] at hd
              simp only [SymbolTable.enterScope, List.length_cons] at hd
              simp only [SymbolTable.exitScope]
              rw [if_pos (by omega)]
              have ht : st4.symtab.tail.length = st4.symtab.length - 1 :=
                List.length_tail _
              simp only [ht]
              omega
      | ifStmt cond thenB elseB =>
        simp only [checkStatement] at h
        split at h
        · exact absurd (congrArg Prod.snd h) (by simp)
        · split at h
          · exact absurd (congrArg Prod.snd h) (by simp)
          · split at h
            next st1 msg heq => exact absurd (congrArg Prod.snd h) (by simp)
            next st1 heq =>
              have hd1 := ihS thenB st st1 hlen heq
              split at h
              · injection h with h1 h2; subst h1; exact hd1
              next e =>
                have hd2 := ihS e st1 st' (by omega) h
                omega
      | whileStmt cond body =>
        simp only [checkStatement] at h
        split at h
        · exact absurd (congrArg Prod.snd h) (by simp)
        · split at h
          · exact absurd (congrArg Prod.snd h) (by simp)
          · exact ihS body st st' hlen h
      | forStmt ini cond inc body =>
        simp only [checkStatement] at h
        split at h
        next st2 msg heq => exact absurd (congrArg Prod.snd h) (by simp)
        next st2 heq =>
          have hst2 : st2.symtab.length = st.symtab.length + 1 := by
            cases ini with
            | none =>
              injection heq with h1 h2; subst h1
              simp [SymbolTable.enterScope]
            | some i =>
              have := ihS i _ st2 (by simp [SymbolTable.enterScope]) heq
              simp only [SymbolTable.enterScope, List.length_cons] at this
              omega
          split at h
          · exact absurd (congrArg Prod.snd h) (by simp)
          · split at h
            · exact absurd (congrArg Prod.snd h) (by simp)
            · split at h
              next st3 msg heq3 => exact absurd (congrArg Prod.snd h) (by simp)
              next st3 heq3 =>
                injection h with h1 h2; subst h1
                have hd := ihS body st2 st3 (by omega) heq3
                simp only [SymbolTable.exitScope]
                rw [if_pos (by omega)]
                have ht : st3.symtab.tail.length = st3.symtab.length - 1 :=
                  List.length_tail _
                simp only [ht]
                omega
      | ret value =>
        simp only [checkStatement] at h
        split at h
        · exact absurd (congrArg Prod.snd h) (by simp)
        · split at h
          next v =>
            split at h
            · exact absurd (congrArg Prod.snd h) (by simp)
            next rt2 =>
              split at h
              · exact absurd (congrArg Prod.snd h) (by simp)
              · split at h
                · exact absurd (congrArg Prod.snd h) (by simp)
                · injection h with h1 h2; subst h1; rfl
          next =>
            split at h
            · exact absurd (congrArg Prod.snd h) (by simp)
            · injection h with h1 h2; subst h1; rfl
    · intro l st st' hlen h
      cases l with
      | nil =>
        simp only [checkStatementList] at h
        injection h with h1 h2; subst h1; rfl
      | cons s rest =>
        simp only [checkStatementList] at h
        split at h
        next st1 msg heq => exact absurd (congrArg Prod.snd h) (by simp)
        next st1 heq =>
          have hd1 := ihS s st st1 hlen heq
          have hd2 := ihL rest st1 st' (by omega) h
          omega


/-- C3 amended: the scopes pushed by block, for and function-body
checking are popped again whenever the enclosed statements raise no
error: on every successful `checkStatement` run the scope-stack depth is
preserved.  (When a semantic error propagates, the pop is skipped and
the depth can grow — see the counterexample.) -/
theorem claim3_amended (fuel : Nat) (s : Stmt) (st st' : TC)
    (hlen : 1 ≤ st.symtab.length)
    (h : checkStatement fuel s st = (st', none)) :
    st'.symtab.length = st.symtab.length :=
  (check_preserves_depth fuel).1 s st st' hlen h

/-- C3 witness: the amended claim applied to checking the empty block
against a fresh checker state. -/
theorem claim3_witness :
    (1 ≤ TC.fresh.symtab.length ∧
      checkStatement 3 (Stmt.block []) TC.fresh = (TC.fresh, none)) ∧
    TC.fresh.symtab.length = TC.fresh.symtab.length :=
  ⟨⟨by decide, rfl⟩, claim3_amended 3 (Stmt.block []) TC.fresh TC.fresh (by decide) rfl⟩

/-- The precedence chain on a lone identifier: when the following token
extends no precedence level (no postfix, call, stream, or binary
operator can consume it), the whole chain returns the bare identifier. -/
theorem parseChain_ident (f f' : Nat) (hf : f = f' + 7) (x lx : String)
    (ln ln' : Nat) (tt : TokenType) (rest : List Token)
    (hne : tt ≠ TokenType.INCREMENT ∧ tt ≠ TokenType.DECREMENT ∧
      tt ≠ TokenType.LPAREN ∧ tt ≠ TokenType.LEFT_SHIFT ∧
      tt ≠ TokenType.RIGHT_SHIFT ∧ tt ≠ TokenType.MULTIPLY ∧
      tt ≠ TokenType.SLASH ∧ tt ≠ TokenType.PLUS ∧ tt ≠ TokenType.MINUS ∧
      tt ≠ TokenType.LESS ∧ tt ≠ TokenType.LESS_EQUAL ∧
      tt ≠ TokenType.GREATER ∧ tt ≠ TokenType.GREATER_EQUAL ∧
      tt ≠ TokenType.EQUAL_EQUAL ∧ tt ≠ TokenType.NOT_EQUAL ∧
      tt ≠ TokenType.AND ∧ tt ≠ TokenType.OR) :
    parseLogicalOr f
        (⟨TokenType.IDENTIFIER, x, ln⟩ :: ⟨tt, lx, ln'⟩ :: rest) =
      Except.ok (Expr.ident x, ⟨tt, lx, ln'⟩ :: rest) := by
  subst hf
  obtain ⟨h1, h2, h3, h4, h5, h6, h7, h8, h9, h10, h11, h12, h13, h14, h15, h16, h17⟩ := hne
  simp only [parseLogicalOr, parseLogicalAnd, parseEquality, parseComparison,
    parseTerm, parseFactor, parsePrimary, parseOrLoop, parseAndLoop,
    parseEqLoop, parseCmpLoop, parseTermLoop, parseFactorLoop, withSync,
    curType, curTok, curLexeme, adv, List.headD,
    h1, h2, h3, h4, h5, h6, h7, h8, h9, h10, h11, h12, h13, h14, h15, h16, h17]
  simp [*]

/-- The precedence chain on `x op (…)` for an arithmetic `op`: the chain
reads the identifier, the factor/term loop consumes the operator, and the
parenthesised right operand is a full `parseExpression` call. -/
theorem parseChain_binop (f f' : Nat) (hf : f = f' + 9) (x lxu : String)
    (op' : TokenType)
    (hop : op' = TokenType.PLUS ∨ op' = TokenType.MINUS ∨
      op' = TokenType.MULTIPLY ∨ op' = TokenType.SLASH)
    (ts : List Token) (E : Expr)
    (h2 : parseAssignment f'
        (ts ++ [⟨TokenType.RPAREN, ")", 1⟩, ⟨TokenType.SEMICOLON, ";", 1⟩]) =
      Except.ok (E, [⟨TokenType.RPAREN, ")", 1⟩, ⟨TokenType.SEMICOLON, ";", 1⟩])) :
    parseLogicalOr f
        (⟨TokenType.IDENTIFIER, x, 1⟩ :: ⟨op', lxu, 1⟩ :: ⟨TokenType.LPAREN, "(", 1⟩ ::
         (ts ++ [⟨TokenType.RPAREN, ")", 1⟩, ⟨TokenType.SEMICOLON, ";", 1⟩])) =
      Except.ok (Expr.binary (Expr.ident x) op' E, [⟨TokenType.SEMICOLON, ";", 1⟩]) := by
  subst hf
  rcases hop with h | h | h | h <;> subst h <;>
    simp only [parseLogicalOr, parseLogicalAnd, parseEquality, parseComparison,
      parseTerm, parseFactor, parsePrimary, parseExpression, parseOrLoop,
      parseAndLoop, parseEqLoop, parseCmpLoop, parseTermLoop, parseFactorLoop,
      withSync, consume, curType, curTok, curLexeme, adv, List.headD, h2] <;>
    simp [h2]

/-- C5: for every identifier `x` (other than the type-starting word
`string`), compound operator `op=` with underlying operator `op2`, and
operand token list `ts` that parses as the expression `E` in both
contexts, the statements `x op= ts ;` and `x = x op2 ( ts ) ;` parse to
the structurally identical AST
`ExprStmt (Assign x = (Binary (Ident x) op2 E))`, both consuming all
input.  The two fuel parameters only need the stated offsets because the
embedding's recursive-descent functions consume one fuel unit per call. -/
theorem claim5_theorem (x lxe lxu : String) (hx : x ≠ "string")
    (op op2 : TokenType)
    (hop : (op, op2) ∈ [(TokenType.PLUS_EQUAL, TokenType.PLUS),
      (TokenType.MINUS_EQUAL, TokenType.MINUS),
      (TokenType.MULTIPLY_EQUAL, TokenType.MULTIPLY),
      (TokenType.DIVIDE_EQUAL, TokenType.SLASH)])
    (ts : List Token) (E : Expr) (f₁ f₂ : Nat)
    (h1 : parseAssignment (f₁ + 7) (ts ++ [⟨TokenType.SEMICOLON, ";", 1⟩]) =
      Except.ok (E, [⟨TokenType.SEMICOLON, ";", 1⟩]))
    (h2 : parseAssignment f₂
        (ts ++ [⟨TokenType.RPAREN, ")", 1⟩, ⟨TokenType.SEMICOLON, ";", 1⟩]) =
      Except.ok (E, [⟨TokenType.RPAREN, ")", 1⟩, ⟨TokenType.SEMICOLON, ";", 1⟩])) :
    parseStatement (f₁ + 10)
        (⟨TokenType.IDENTIFIER, x, 1⟩ :: ⟨op, lxe, 1⟩ ::
          (ts ++ [⟨TokenType.SEMICOLON, ";", 1⟩])) =
      Except.ok (Stmt.exprStmt (Expr.assign x TokenType.EQUAL
        (Expr.binary (Expr.ident x) op2 E)), []) ∧
    parseStatement (f₂ + 13)
        (⟨TokenType.IDENTIFIER, x, 1⟩ :: ⟨TokenType.EQUAL, "=", 1⟩ ::
          ⟨TokenType.IDENTIFIER, x, 1⟩ :: ⟨op2, lxu, 1⟩ ::
          ⟨TokenType.LPAREN, "(", 1⟩ ::
          (ts ++ [⟨TokenType.RPAREN, ")", 1⟩, ⟨TokenType.SEMICOLON, ";", 1⟩])) =
      Except.ok (Stmt.exprStmt (Expr.assign x TokenType.EQUAL
        (Expr.binary (Expr.ident x) op2 E)), []) := by
  simp only [List.mem_cons, List.not_mem_nil, or_false, Prod.mk.injEq] at hop
  rcases hop with ⟨h, h2x⟩ | ⟨h, h2x⟩ | ⟨h, h2x⟩ | ⟨h, h2x⟩ <;> subst h <;> subst h2x
  · refine ⟨?_, ?_⟩
    · -- compound form `x plus_equal e ;`
      simp only [parseStatement, parseExpression, skipSemis, curType, curTok,
        curLexeme, List.headD, adv, bind, Except.bind, hx, withSync,
        reduceCtorEq, reduceIte, decide_eq_true_eq, false_and, and_false,
        false_or, or_false, if_false, if_true, ite_false, ite_true,
        List.cons_append, List.append_eq, List.nil_append]
      rw [parseAssignment]
      rw [parseChain_ident (f₁ + 7) f₁ rfl x lxe 1 1 TokenType.PLUS_EQUAL
        (ts ++ [Token.mk TokenType.SEMICOLON ";" 1]) (by decide)]
      simp only [curType, curTok, List.headD, adv, h1, withSync, consume,
        bind, Except.bind]
      simp
    · -- spelled-out form `x = x plus ( e ) ;`
      simp only [parseStatement, parseExpression, skipSemis, curType, curTok,
        curLexeme, List.headD, adv, bind, Except.bind, hx, withSync,
        reduceCtorEq, reduceIte, decide_eq_true_eq, false_and, and_false,
        false_or, or_false, if_false, if_true, ite_false, ite_true,
        List.cons_append, List.append_eq, List.nil_append]
      rw [parseAssignment]
      rw [parseChain_ident (f₂ + 10) (f₂ + 3) rfl x "=" 1 1 TokenType.EQUAL
        (Token.mk TokenType.IDENTIFIER x 1 :: Token.mk TokenType.PLUS lxu 1 ::
          Token.mk TokenType.LPAREN "(" 1 ::
          (ts ++ [Token.mk TokenType.RPAREN ")" 1, Token.mk TokenType.SEMICOLON ";" 1]))
        (by decide)]
      simp only [curType, curTok, List.headD, adv, reduceCtorEq, reduceIte,
        decide_eq_true_eq, false_and, and_false, false_or, or_false,
        if_false, if_true, ite_false, ite_true]
      rw [parseAssignment]
      rw [parseChain_binop (f₂ + 9) f₂ rfl x lxu TokenType.PLUS (by simp)
        ts E h2]
      simp only [curType, curTok, List.headD, adv, withSync, consume,
        bind, Except.bind]
      simp
  · refine ⟨?_, ?_⟩
    · -- compound form `x minus_equal e ;`
      simp only [parseStatement, parseExpression, skipSemis, curType, curTok,
        curLexeme, List.headD, adv, bind, Except.bind, hx, withSync,
        reduceCtorEq, reduceIte, decide_eq_true_eq, false_and, and_false,
        false_or, or_false, if_false, if_true, ite_false, ite_true,
        List.cons_append, List.append_eq, List.nil_append]
      rw [parseAssignment]
      rw [parseChain_ident (f₁ + 7) f₁ rfl x lxe 1 1 TokenType.MINUS_EQUAL
        (ts ++ [Token.mk TokenType.SEMICOLON ";" 1]) (by decide)]
      simp only [curType, curTok, List.headD, adv, h1, withSync, consume,
        bind, Except.bind]
      simp
    · -- spelled-out form `x = x minus ( e ) ;`
      simp only [parseStatement, parseExpression, skipSemis, curType, curTok,
        curLexeme, List.headD, adv, bind, Except.bind, hx, withSync,
        reduceCtorEq, reduceIte, decide_eq_true_eq, false_and, and_false,
        false_or, or_false, if_false, if_true, ite_false, ite_true,
        List.cons_append, List.append_eq, List.nil_append]
      rw [parseAssignment]
      rw [parseChain_ident (f₂ + 10) (f₂ + 3) rfl x "=" 1 1 TokenType.EQUAL
        (Token.mk TokenType.IDENTIFIER x 1 :: Token.mk TokenType.MINUS lxu 1 ::
          Token.mk TokenType.LPAREN "(" 1 ::
          (ts ++ [Token.mk TokenType.RPAREN ")" 1, Token.mk TokenType.SEMICOLON ";" 1]))
        (by decide)]
      simp only [curType, curTok, List.headD, adv, reduceCtorEq, reduceIte,
        decide_eq_true_eq, false_and, and_false, false_or, or_false,
        if_false, if_true, ite_false, ite_true]
      rw [parseAssignment]
      rw [parseChain_binop (f₂ + 9) f₂ rfl x lxu TokenType.MINUS (by simp)
        ts E h2]
      simp only [curType, curTok, List.headD, adv, withSync, consume,
        bind, Except.bind]
      simp
  · refine ⟨?_, ?_⟩
    · -- compound form `x multiply_equal e ;`
      simp only [parseStatement, parseExpression, skipSemis, curType, curTok,
        curLexeme, List.headD, adv, bind, Except.bind, hx, withSync,
        reduceCtorEq, reduceIte, decide_eq_true_eq, false_and, and_false,
        false_or, or_false, if_false, if_true, ite_false, ite_true,
        List.cons_append, List.append_eq, List.nil_append]
      rw [parseAssignment]
      rw [parseChain_ident (f₁ + 7) f₁ rfl x lxe 1 1 TokenType.MULTIPLY_EQUAL
        (ts ++ [Token.mk TokenType.SEMICOLON ";" 1]) (by decide)]
      simp only [curType, curTok, List.headD, adv, h1, withSync, consume,
        bind, Except.bind]
      simp
    · -- spelled-out form `x = x multiply ( e ) ;`
      simp only [parseStatement, parseExpression, skipSemis, curType, curTok,
        curLexeme, List.headD, adv, bind, Except.bind, hx, withSync,
        reduceCtorEq, reduceIte, decide_eq_true_eq, false_and, and_false,
        false_or, or_false, if_false, if_true, ite_false, ite_true,
        List.cons_append, List.append_eq, List.nil_append]
      rw [parseAssignment]
      rw [parseChain_ident (f₂ + 10) (f₂ + 3) rfl x "=" 1 1 TokenType.EQUAL
        (Token.mk TokenType.IDENTIFIER x 1 :: Token.mk TokenType.MULTIPLY lxu 1 ::
          Token.mk TokenType.LPAREN "(" 1 ::
          (ts ++ [Token.mk TokenType.RPAREN ")" 1, Token.mk TokenType.SEMICOLON ";" 1]))
        (by decide)]
      simp only [curType, curTok, List.headD, adv, reduceCtorEq, reduceIte,
        decide_eq_true_eq, false_and, and_false, false_or, or_false,
        if_false, if_true, ite_false, ite_true]
      rw [parseAssignment]
      rw [parseChain_binop (f₂ + 9) f₂ rfl x lxu TokenType.MULTIPLY (by simp)
        ts E h2]
      simp only [curType, curTok, List.headD, adv, withSync, consume,
        bind, Except.bind]
      simp
  · refine ⟨?_, ?_⟩
    · -- compound form `x divide_equal e ;`
      simp only [parseStatement, parseExpression, skipSemis, curType, curTok,
        curLexeme, List.headD, adv, bind, Except.bind, hx, withSync,
        reduceCtorEq, reduceIte, decide_eq_true_eq, false_and, and_false,
        false_or, or_false, if_false, if_true, ite_false, ite_true,
        List.cons_append, List.append_eq, List.nil_append]
      rw [parseAssignment]
      rw [parseChain_ident (f₁ + 7) f₁ rfl x lxe 1 1 TokenType.DIVIDE_EQUAL
        (ts ++ [Token.mk TokenType.SEMICOLON ";" 1]) (by decide)]
      simp only [curType, curTok, List.headD, adv, h1, withSync, consume,
        bind, Except.bind]
      simp
    · -- spelled-out form `x = x slash ( e ) ;`
      simp only [parseStatement, parseExpression, skipSemis, curType, curTok,
        curLexeme, List.headD, adv, bind, Except.bind, hx, withSync,
        reduceCtorEq, reduceIte, decide_eq_true_eq, false_and, and_false,
        false_or, or_false, if_false, if_true, ite_false, ite_true,
        List.cons_append, List.append_eq, List.nil_append]
      rw [parseAssignment]
      rw [parseChain_ident (f₂ + 10) (f₂ + 3) rfl x "=" 1 1 TokenType.EQUAL
        (Token.mk TokenType.IDENTIFIER x 1 :: Token.mk TokenType.SLASH lxu 1 ::
          Token.mk TokenType.LPAREN "(" 1 ::
          (ts ++ [Token.mk TokenType.RPAREN ")" 1, Token.mk TokenType.SEMICOLON ";" 1]))
        (by decide)]
      simp only [curType, curTok, List.headD, adv, reduceCtorEq, reduceIte,
        decide_eq_true_eq, false_and, and_false, false_or, or_false,
        if_false, if_true, ite_false, ite_true]
      rw [parseAssignment]
      rw [parseChain_binop (f₂ + 9) f₂ rfl x lxu TokenType.SLASH (by simp)
        ts E h2]
      simp only [curType, curTok, List.headD, adv, withSync, consume,
        bind, Except.bind]
      simp

/-- C5 witness: the theorem applied to `y += 1 ;` versus
`y = y + ( 1 ) ;`. -/
theorem claim5_witness :
    ("y" : String) ≠ "string" ∧
    parseAssignment (2 + 7)
        ([⟨TokenType.INTEGER_LITERAL, "1", 1⟩] ++ [⟨TokenType.SEMICOLON, ";", 1⟩]) =
      Except.ok (Expr.literal "1" TokenType.INTEGER_LITERAL,
        [⟨TokenType.SEMICOLON, ";", 1⟩]) ∧
    parseAssignment 9
        ([⟨TokenType.INTEGER_LITERAL, "1", 1⟩] ++
          [⟨TokenType.RPAREN, ")", 1⟩, ⟨TokenType.SEMICOLON, ";", 1⟩]) =
      Except.ok (Expr.literal "1" TokenType.INTEGER_LITERAL,
        [⟨TokenType.RPAREN, ")", 1⟩, ⟨TokenType.SEMICOLON, ";", 1⟩]) ∧
    parseStatement (2 + 10)
        (⟨TokenType.IDENTIFIER, "y", 1⟩ :: ⟨TokenType.PLUS_EQUAL, "+=", 1⟩ ::
          ([⟨TokenType.INTEGER_LITERAL, "1", 1⟩] ++ [⟨TokenType.SEMICOLON, ";", 1⟩])) =
      Except.ok (Stmt.exprStmt (Expr.assign "y" TokenType.EQUAL
        (Expr.binary (Expr.ident "y") TokenType.PLUS
          (Expr.literal "1" TokenType.INTEGER_LITERAL))), []) ∧
    parseStatement (9 + 13)
        (⟨TokenType.IDENTIFIER, "y", 1⟩ :: ⟨TokenType.EQUAL, "=", 1⟩ ::
          ⟨TokenType.IDENTIFIER, "y", 1⟩ :: ⟨TokenType.PLUS, "+", 1⟩ ::
          ⟨TokenType.LPAREN, "(", 1⟩ ::
          ([⟨TokenType.INTEGER_LITERAL, "1", 1⟩] ++
            [⟨TokenType.RPAREN, ")", 1⟩, ⟨TokenType.SEMICOLON, ";", 1⟩])) =
      Except.ok (Stmt.exprStmt (Expr.assign "y" TokenType.EQUAL
        (Expr.binary (Expr.ident "y") TokenType.PLUS
          (Expr.literal "1" TokenType.INTEGER_LITERAL))), []) := by
  refine ⟨by decide, rfl, rfl, ?_, ?_⟩
  · exact (claim5_theorem ("y") ("+=") ("+") (by decide) TokenType.PLUS_EQUAL TokenType.PLUS
      (by decide) [⟨TokenType.INTEGER_LITERAL, "1", 1⟩]
      (Expr.literal "1" TokenType.INTEGER_LITERAL) 2 9 rfl rfl).1
  · exact (claim5_theorem ("y") ("+=") ("+") (by decide) TokenType.PLUS_EQUAL TokenType.PLUS
      (by decide) [⟨TokenType.INTEGER_LITERAL, "1", 1⟩]
      (Expr.literal "1" TokenType.INTEGER_LITERAL) 2 9 rfl rfl).2

end MiniC
